import Mathlib

/-!
Verification development for the xig statistics server (src/xig.js).

The Lean definitions below are a shallow embedding of the JavaScript
source.  Pure string-building functions are translated function by
function; the stateful dataset-lifecycle code is translated as explicit
state passing over a small system-state record, with the external world
(network fetch success, filesystem operation success, SQLite open
success, dataset rows) supplied as an environment record.  JavaScript
strings are modelled as Lean `String` (code points instead of UTF-16
units; all the strings involved are ASCII), JS numbers that are used as
counts/keys as `Nat`.
-/

namespace Xig

/-- The single-quote character, written via its code point. -/
def squote : Char := Char.ofNat 39

/-- The hash character. -/
def hashChar : Char := Char.ofNat 35

/-- The pipe character. -/
def pipeChar : Char := Char.ofNat 124

/-- Characters the relevant JS string operations treat as whitespace
(the strings in play only ever contain spaces and newlines). -/
def isJsWS (c : Char) : Bool := c = ' ' || c = '\n' || c = '\t' || c = '\r'

/-- JS `String.trim`, as used on the SQL templates: drop whitespace
from both ends. -/
def jsTrim (s : String) : String :=
  ⟨((s.data.dropWhile isJsWS).reverse.dropWhile isJsWS).reverse⟩

/-- JS `s.substring(n)`: drop the first `n` units. -/
def jsSubstringFrom (s : String) (n : Nat) : String := ⟨s.data.drop n⟩

/-- Number of single-quote characters in a string. -/
def countQuotes (s : String) : Nat := s.data.count squote

/-- The replace of each quote by a doubled quote, at the character-list level. -/
def escList : List Char → List Char
  | [] => []
  | c :: cs => if c = squote then squote :: squote :: escList cs else c :: escList cs

/-- src/xig.js `sqlEscapeString`: double every single quote
(`if (!str) return ''` coincides with replacing on the empty string). -/
def sqlEscapeString (s : String) : String := ⟨escList s.data⟩

theorem data_append (a b : String) : (a ++ b).data = a.data ++ b.data := by
  cases a; cases b; rfl

theorem mk_append (a b : List Char) :
    (String.mk a) ++ (String.mk b) = String.mk (a ++ b) := by
  rfl

theorem strAppend_assoc (a b c : String) : (a ++ b) ++ c = a ++ (b ++ c) := by
  cases a; cases b; cases c
  show String.mk _ = String.mk _
  simp [mk_append]

theorem strAppend_empty (a : String) : a ++ "" = a := by
  cases a
  show String.mk _ = String.mk _
  simp [mk_append]

theorem strEmpty_append (a : String) : "" ++ a = a := by
  cases a
  rfl

theorem countQuotes_append (a b : String) :
    countQuotes (a ++ b) = countQuotes a + countQuotes b := by
  simp [countQuotes, data_append]

theorem countQuotes_escList (l : List Char) :
    (escList l).count squote = 2 * l.count squote := by
  induction l with
  | nil => simp [escList]
  | cons c cs ih =>
    by_cases h : c = squote
    · subst h
      simp [escList, ih, List.count_cons]
      ring
    · simp [escList, h, ih, List.count_cons]

theorem countQuotes_sqlEscapeString (s : String) :
    countQuotes (sqlEscapeString s) = 2 * countQuotes s := by
  simp [countQuotes, sqlEscapeString, countQuotes_escList]

/-!  The in-memory config cache (src/xig.js lines 32-43 and 1176-1246).
`configCache.maps` is a JS object whose properties are `Set`s, `Map`s of
strings, or the two package indexes; we model it as an association list
from table name to a `CacheTable`.  A missing property is a missing key. -/

/-- One package row as cached by `loadConfigCache` (PackageKey, Id, PID,
Web, Canonical). -/
structure PackageObj where
  packageKey : Nat
  id : String
  pid : String
  web : String
  canonical : String
deriving DecidableEq, Repr

/-- A value stored in `configCache.maps`: a `Set` of strings, a `Map`
from string to string, or one of the two package indexes. -/
inductive CacheTable where
  | tset (elems : List String)
  | tmap (entries : List (String × String))
  | tpackByKey (entries : List (Nat × PackageObj))
  | tpackById (entries : List (String × PackageObj))
deriving DecidableEq, Repr

/-- The atomically-replaced cache object (`configCache`). -/
structure ConfigCache where
  loaded : Bool
  maps : List (String × CacheTable)
deriving DecidableEq, Repr

/-- Property lookup on `configCache.maps` (`configCache.maps[tableName]`). -/
def mapsLookup (cc : ConfigCache) (tableName : String) : Option CacheTable :=
  (cc.maps.find? (fun p => p.1 = tableName)).map (·.2)

/-- The initial cache object (src/xig.js lines 33-37): not loaded, no maps. -/
def initialConfigCache : ConfigCache := { loaded := false, maps := [] }

/-- src/xig.js `hasCachedValue`: false when the cache is not loaded or the
table is missing; `Set` membership when the table is a `Set`
(`instanceof Set`); false for every other table kind. -/
def hasCachedValue (cc : ConfigCache) (tableName value : String) : Bool :=
  if !cc.loaded then false
  else
    match mapsLookup cc tableName with
    | some (CacheTable.tset elems) => elems.contains value
    | _ => false

/-- src/xig.js `hasTerminologySource`: membership test against the
`txSources` cache (which `loadConfigCache` builds as a `Map`, so
`hasCachedValue`'s `instanceof Set` test makes this always false). -/
def hasTerminologySource (cc : ConfigCache) (sourceCode : String) : Bool :=
  hasCachedValue cc "txSources" sourceCode

/-- Lexicographic insertion of a string into a sorted list (used to model
JS `Array.sort()` on arrays of strings). -/
def insSorted (x : String) : List String → List String
  | [] => [x]
  | y :: ys => if x < y then x :: y :: ys else y :: insSorted x ys

/-- JS default `Array.sort()` on strings: lexicographic. -/
def insSort : List String → List String
  | [] => []
  | x :: xs => insSorted x (insSort xs)

/-- src/xig.js `getCachedSet`: empty unless the cache is loaded and the
table is a `Set`; otherwise the sorted element list. -/
def getCachedSet (cc : ConfigCache) (tableName : String) : List String :=
  if !cc.loaded then []
  else
    match mapsLookup cc tableName with
    | some (CacheTable.tset elems) => insSort elems
    | _ => []

/-!  The facet-to-SQL filter compiler (src/xig.js lines 212-387). -/

/-- The query parameters as parsed by the `/resources` route
(src/xig.js lines 1880-1888): six facets plus the pagination offset,
each defaulting to the empty string.  The field order matches the
insertion order of the JS object (used for link building). -/
structure QueryParams where
  ver : String := ""
  auth : String := ""
  realm : String := ""
  type : String := ""
  rt : String := ""
  text : String := ""
  offset : String := "0"
deriving DecidableEq, Repr

/-- Realm fragment of `buildSqlFilter` (lines 223-225). -/
def realmPart (qp : QueryParams) : String :=
  if qp.realm != "" then " and realm = '" ++ sqlEscapeString qp.realm ++ "'" else ""

/-- Authority fragment of `buildSqlFilter` (lines 228-230). -/
def authPart (qp : QueryParams) : String :=
  if qp.auth != "" then " and authority = '" ++ sqlEscapeString qp.auth ++ "'" else ""

/-- Version fragment of `buildSqlFilter` (lines 233-257): a closed switch
over the seven version flags; any other value adds nothing. -/
def verPart (qp : QueryParams) : String :=
  if qp.ver != "" then
    if qp.ver = "R2" then " and R2 = 1"
    else if qp.ver = "R2B" then " and R2B = 1"
    else if qp.ver = "R3" then " and R3 = 1"
    else if qp.ver = "R4" then " and R4 = 1"
    else if qp.ver = "R4B" then " and R4B = 1"
    else if qp.ver = "R5" then " and R5 = 1"
    else if qp.ver = "R6" then " and R6 = 1"
    else ""
  else ""

/-- Type-specific fragment of `buildSqlFilter` (lines 260-310), including
the validated-or-dropped `rt` refinement clause of each branch. -/
def typePart (cc : ConfigCache) (qp : QueryParams) : String :=
  if qp.type = "cs" then " and ResourceType = 'CodeSystem'"
  else if qp.type = "rp" then
      " and ResourceType = 'StructureDefinition' and kind = 'resource'" ++
      (if qp.rt != "" && hasCachedValue cc "profileResources" qp.rt then
        " and Type = '" ++ sqlEscapeString qp.rt ++ "'"
      else "")
  else if qp.type = "dp" then
      " and ResourceType = 'StructureDefinition' and (kind = 'complex-type' or kind = 'primitive-type')" ++
      (if qp.rt != "" && hasCachedValue cc "profileTypes" qp.rt then
        " and Type = '" ++ sqlEscapeString qp.rt ++ "'"
      else "")
  else if qp.type = "lm" then " and ResourceType = 'StructureDefinition' and kind = 'logical'"
  else if qp.type = "ext" then
      " and ResourceType = 'StructureDefinition' and (Type = 'Extension')" ++
      (if qp.rt != "" && hasCachedValue cc "extensionContexts" qp.rt then
        " and ResourceKey in (Select ResourceKey from Categories where Mode = 2 and Code = '" ++
          sqlEscapeString qp.rt ++ "')"
      else "")
  else if qp.type = "vs" then
      " and ResourceType = 'ValueSet'" ++
      (if qp.rt != "" && hasTerminologySource cc qp.rt then
        " and ResourceKey in (Select ResourceKey from Categories where Mode = 1 and Code = '" ++
          sqlEscapeString qp.rt ++ "')"
      else "")
  else if qp.type = "cm" then
      " and ResourceType = 'ConceptMap'" ++
      (if qp.rt != "" && hasTerminologySource cc qp.rt then
        " and ResourceKey in (Select ResourceKey from Categories where Mode = 1 and Code = '" ++
          sqlEscapeString qp.rt ++ "')"
      else "")
  else
      if qp.rt != "" && hasCachedValue cc "resourceTypes" qp.rt then
        " and ResourceType = '" ++ sqlEscapeString qp.rt ++ "'"
      else ""

/-- Free-text fragment of `buildSqlFilter` (lines 313-323). -/
def textPart (qp : QueryParams) : String :=
  if qp.text != "" then
    let escapedText := sqlEscapeString qp.text
    if qp.type = "cs" then
      " and (ResourceKey in (select ResourceKey from ResourceFTS where Description match '" ++
        escapedText ++ "' or Narrative match '" ++ escapedText ++ "') " ++
        "or ResourceKey in (select ResourceKey from CodeSystemFTS where Display match '" ++
        escapedText ++ "' or Definition match '" ++ escapedText ++ "'))"
    else
      " and ResourceKey in (select ResourceKey from ResourceFTS where Description match '" ++
        escapedText ++ "' or Narrative match '" ++ escapedText ++ "')"
  else ""

/-- The accumulated `filter` string of `buildSqlFilter` just before the
final `WHERE` conversion (the successive `filter += ...` statements). -/
def rawSqlFilter (cc : ConfigCache) (qp : QueryParams) : String :=
  realmPart qp ++ authPart qp ++ verPart qp ++ typePart cc qp ++ textPart qp

/-- src/xig.js `buildSqlFilter` (lines 218-332): accumulate the fragments,
then, when non-empty, replace the leading ` and` (4 characters,
`filter.substring(4)`) and prepend `WHERE `. -/
def buildSqlFilter (cc : ConfigCache) (qp : QueryParams) : String :=
  let filter := rawSqlFilter cc qp
  if filter != "" then "WHERE " ++ jsSubstringFrom filter 4 else filter

/-- Whether the `rt` refinement value passes the branch-specific
known-value check of `buildSqlFilter` (the `hasCachedValue` /
`hasTerminologySource` guard of each `type` branch; `cs` and `lm`
never consult `rt`). -/
def rtAccepted (cc : ConfigCache) (ty rt : String) : Bool :=
  if ty = "cs" then false
  else if ty = "rp" then hasCachedValue cc "profileResources" rt
  else if ty = "dp" then hasCachedValue cc "profileTypes" rt
  else if ty = "lm" then false
  else if ty = "ext" then hasCachedValue cc "extensionContexts" rt
  else if ty = "vs" then hasTerminologySource cc rt
  else if ty = "cm" then hasTerminologySource cc rt
  else hasCachedValue cc "resourceTypes" rt

/-!  A clause-level characterization of the generated filter: the
accumulated string is exactly the concatenation of ` and ` followed by
each applied clause.  `sqlClauses` lists the clauses (without the
leading separator) in the order the source appends them. -/

/-- Concatenate a ` and `-prefixed fragment for every clause. -/
def joinAnd : List String → String
  | [] => ""
  | c :: cs => " and " ++ c ++ joinAnd cs

/-- Rendering of a clause list separated by " and " (no leading separator). -/
def andIntercalate : List String → String
  | [] => ""
  | [c] => c
  | c :: cs => c ++ " and " ++ andIntercalate cs

def realmClauses (qp : QueryParams) : List String :=
  if qp.realm != "" then ["realm = '" ++ sqlEscapeString qp.realm ++ "'"] else []

def authClauses (qp : QueryParams) : List String :=
  if qp.auth != "" then ["authority = '" ++ sqlEscapeString qp.auth ++ "'"] else []

def verClauses (qp : QueryParams) : List String :=
  if qp.ver != "" then
    if qp.ver = "R2" then ["R2 = 1"]
    else if qp.ver = "R2B" then ["R2B = 1"]
    else if qp.ver = "R3" then ["R3 = 1"]
    else if qp.ver = "R4" then ["R4 = 1"]
    else if qp.ver = "R4B" then ["R4B = 1"]
    else if qp.ver = "R5" then ["R5 = 1"]
    else if qp.ver = "R6" then ["R6 = 1"]
    else []
  else []

def typeClauses (cc : ConfigCache) (qp : QueryParams) : List String :=
  if qp.type = "cs" then ["ResourceType = 'CodeSystem'"]
  else if qp.type = "rp" then
      ["ResourceType = 'StructureDefinition'", "kind = 'resource'"] ++
      (if qp.rt != "" && hasCachedValue cc "profileResources" qp.rt then
        ["Type = '" ++ sqlEscapeString qp.rt ++ "'"] else [])
  else if qp.type = "dp" then
      ["ResourceType = 'StructureDefinition'", "(kind = 'complex-type' or kind = 'primitive-type')"] ++
      (if qp.rt != "" && hasCachedValue cc "profileTypes" qp.rt then
        ["Type = '" ++ sqlEscapeString qp.rt ++ "'"] else [])
  else if qp.type = "lm" then ["ResourceType = 'StructureDefinition'", "kind = 'logical'"]
  else if qp.type = "ext" then
      ["ResourceType = 'StructureDefinition'", "(Type = 'Extension')"] ++
      (if qp.rt != "" && hasCachedValue cc "extensionContexts" qp.rt then
        ["ResourceKey in (Select ResourceKey from Categories where Mode = 2 and Code = '" ++
          sqlEscapeString qp.rt ++ "')"] else [])
  else if qp.type = "vs" then
      ["ResourceType = 'ValueSet'"] ++
      (if qp.rt != "" && hasTerminologySource cc qp.rt then
        ["ResourceKey in (Select ResourceKey from Categories where Mode = 1 and Code = '" ++
          sqlEscapeString qp.rt ++ "')"] else [])
  else if qp.type = "cm" then
      ["ResourceType = 'ConceptMap'"] ++
      (if qp.rt != "" && hasTerminologySource cc qp.rt then
        ["ResourceKey in (Select ResourceKey from Categories where Mode = 1 and Code = '" ++
          sqlEscapeString qp.rt ++ "')"] else [])
  else
      if qp.rt != "" && hasCachedValue cc "resourceTypes" qp.rt then
        ["ResourceType = '" ++ sqlEscapeString qp.rt ++ "'"] else []

def textClauses (qp : QueryParams) : List String :=
  if qp.text != "" then
    let escapedText := sqlEscapeString qp.text
    if qp.type = "cs" then
      ["(ResourceKey in (select ResourceKey from ResourceFTS where Description match '" ++
        escapedText ++ "' or Narrative match '" ++ escapedText ++ "') " ++
        "or ResourceKey in (select ResourceKey from CodeSystemFTS where Display match '" ++
        escapedText ++ "' or Definition match '" ++ escapedText ++ "'))"]
    else
      ["ResourceKey in (select ResourceKey from ResourceFTS where Description match '" ++
        escapedText ++ "' or Narrative match '" ++ escapedText ++ "')"]
  else []

/-- All clauses of the compiled filter, in source order. -/
def sqlClauses (cc : ConfigCache) (qp : QueryParams) : List String :=
  realmClauses qp ++ authClauses qp ++ verClauses qp ++ typeClauses cc qp ++ textClauses qp

theorem strExt {a b : String} (h : a.data = b.data) : a = b := by
  cases a; cases b; exact congrArg String.mk h

theorem joinAnd_append (l1 l2 : List String) :
    joinAnd (l1 ++ l2) = joinAnd l1 ++ joinAnd l2 := by
  induction l1 with
  | nil => simp [joinAnd]
  | cons c cs ih => simp [joinAnd, ih, strAppend_assoc]

theorem realmPart_eq (qp : QueryParams) : realmPart qp = joinAnd (realmClauses qp) := by
  cases h : (qp.realm != "") <;>
    simp [realmPart, realmClauses, joinAnd, h, ← strAppend_assoc]

theorem authPart_eq (qp : QueryParams) : authPart qp = joinAnd (authClauses qp) := by
  cases h : (qp.auth != "") <;>
    simp [authPart, authClauses, joinAnd, h, ← strAppend_assoc]

theorem verPart_eq (qp : QueryParams) : verPart qp = joinAnd (verClauses qp) := by
  unfold verPart verClauses
  split_ifs <;> simp [joinAnd]

theorem typePart_eq (cc : ConfigCache) (qp : QueryParams) :
    typePart cc qp = joinAnd (typeClauses cc qp) := by
  unfold typePart typeClauses
  split_ifs <;> simp [joinAnd_append, joinAnd, ← strAppend_assoc]

theorem textPart_eq (qp : QueryParams) : textPart qp = joinAnd (textClauses qp) := by
  unfold textPart textClauses
  split_ifs <;> simp [joinAnd, ← strAppend_assoc]

theorem rawSqlFilter_eq (cc : ConfigCache) (qp : QueryParams) :
    rawSqlFilter cc qp = joinAnd (sqlClauses cc qp) := by
  simp [rawSqlFilter, sqlClauses, joinAnd_append, realmPart_eq, authPart_eq, verPart_eq,
    typePart_eq, textPart_eq, strAppend_assoc]

theorem joinAnd_cons (c : String) (cs : List String) :
    joinAnd (c :: cs) = " and " ++ andIntercalate (c :: cs) := by
  induction cs generalizing c with
  | nil => simp [joinAnd, andIntercalate, strAppend_empty, strAppend_assoc]
  | cons d ds ih =>
    show " and " ++ c ++ joinAnd (d :: ds) = _
    rw [ih d]
    simp [andIntercalate, strAppend_assoc]

theorem joinAnd_cons_ne_empty (c : String) (cs : List String) :
    joinAnd (c :: cs) ≠ "" := by
  intro h
  have : (joinAnd (c :: cs)).data = [] := by simp [h]
  rw [joinAnd, data_append, data_append] at this
  simp at this

/-- The compiled filter, expressed through the clause list: empty when no
clauses apply, otherwise `WHERE ` + a space + the ` and `-joined clauses
(`substring(4)` strips only the 4 characters ` and` of the first
separator, keeping its trailing space). -/
theorem buildSqlFilter_shape (cc : ConfigCache) (qp : QueryParams) :
    (sqlClauses cc qp = [] → buildSqlFilter cc qp = "") ∧
    (sqlClauses cc qp ≠ [] →
      buildSqlFilter cc qp = "WHERE " ++ (" " ++ andIntercalate (sqlClauses cc qp))) := by
  constructor
  · intro h
    simp [buildSqlFilter, rawSqlFilter_eq, h, joinAnd]
  · intro h
    obtain ⟨c, cs, hcc⟩ : ∃ c cs, sqlClauses cc qp = c :: cs := by
      cases hs : sqlClauses cc qp with
      | nil => exact absurd hs h
      | cons c cs => exact ⟨c, cs, rfl⟩
    have hraw : rawSqlFilter cc qp = " and " ++ andIntercalate (c :: cs) := by
      rw [rawSqlFilter_eq, hcc, joinAnd_cons]
    have hne : rawSqlFilter cc qp ≠ "" := by
      rw [rawSqlFilter_eq, hcc]; exact joinAnd_cons_ne_empty c cs
    have hdrop : jsSubstringFrom (rawSqlFilter cc qp) 4 = " " ++ andIntercalate (c :: cs) := by
      apply strExt
      rw [hraw]
      simp [jsSubstringFrom, data_append]
    simp only [buildSqlFilter, hcc]
    rw [if_pos (by simpa [bne_iff_ne] using hne), hdrop]

/-- Quote parity of each clause: every clause carries an even number of
single quotes (string-literal delimiters come in pairs and escaped facet
values have their quotes doubled). -/
theorem clause_quotes_even (cc : ConfigCache) (qp : QueryParams) :
    ∀ c ∈ sqlClauses cc qp, countQuotes c % 2 = 0 := by
  intro c hc
  simp only [sqlClauses, List.mem_append] at hc
  rcases hc with ((((h | h) | h) | h) | h)
  · simp only [realmClauses] at h
    split at h <;> simp at h
    subst h
    have h1 : countQuotes "realm = '" = 1 := by decide
    have h2 : countQuotes "'" = 1 := by decide
    simp [countQuotes_append, countQuotes_sqlEscapeString, h1, h2]
    omega
  · simp only [authClauses] at h
    split at h <;> simp at h
    subst h
    have h1 : countQuotes "authority = '" = 1 := by decide
    have h2 : countQuotes "'" = 1 := by decide
    simp [countQuotes_append, countQuotes_sqlEscapeString, h1, h2]
    omega
  · simp only [verClauses] at h
    split_ifs at h <;> simp at h <;> subst h <;> decide
  · simp only [typeClauses] at h
    have h2 : countQuotes "'" = 1 := by decide
    have h3 : countQuotes "')" = 1 := by decide
    have hq1 : countQuotes "Type = '" = 1 := by decide
    have hq2 : countQuotes
      "ResourceKey in (Select ResourceKey from Categories where Mode = 2 and Code = '" = 1 := by
      decide
    have hq3 : countQuotes
      "ResourceKey in (Select ResourceKey from Categories where Mode = 1 and Code = '" = 1 := by
      decide
    have hq4 : countQuotes "ResourceType = '" = 1 := by decide
    split_ifs at h <;> simp at h <;>
      (first
        | (rcases h with rfl | rfl | rfl)
        | (rcases h with rfl | rfl)
        | subst h) <;>
      (first
        | decide
        | (simp [countQuotes_append, countQuotes_sqlEscapeString, h2, h3, hq1, hq2, hq3, hq4] <;>
            omega))
  · simp only [textClauses] at h
    have ha : countQuotes
      "(ResourceKey in (select ResourceKey from ResourceFTS where Description match '" = 1 := by
      decide
    have hb : countQuotes "' or Narrative match '" = 2 := by decide
    have hc3 : countQuotes "') " = 1 := by decide
    have hd : countQuotes
      "or ResourceKey in (select ResourceKey from CodeSystemFTS where Display match '" = 1 := by
      decide
    have he : countQuotes "' or Definition match '" = 2 := by decide
    have hf : countQuotes "'))" = 1 := by decide
    have hg : countQuotes
      "ResourceKey in (select ResourceKey from ResourceFTS where Description match '" = 1 := by
      decide
    have hh : countQuotes "')" = 1 := by decide
    split_ifs at h <;> simp at h <;> subst h <;>
      (simp [countQuotes_append, countQuotes_sqlEscapeString, ha, hb, hc3, hd, he, hf, hg, hh] <;>
        omega)

theorem joinAnd_quotes_even (l : List String) (h : ∀ c ∈ l, countQuotes c % 2 = 0) :
    countQuotes (joinAnd l) % 2 = 0 := by
  induction l with
  | nil => decide
  | cons c cs ih =>
    have hc := h c (by simp)
    have hcs := ih (fun x hx => h x (by simp [hx]))
    have h0 : countQuotes " and " = 0 := by decide
    simp [joinAnd, countQuotes_append, h0]
    omega

/-- Quote parity of the whole compiled filter. -/
theorem buildSqlFilter_quotes_even (cc : ConfigCache) (qp : QueryParams) :
    countQuotes (buildSqlFilter cc qp) % 2 = 0 := by
  rcases h : sqlClauses cc qp with _ | ⟨c, cs⟩
  · rw [(buildSqlFilter_shape cc qp).1 h]; decide
  · rw [(buildSqlFilter_shape cc qp).2 (by rw [h]; simp), h]
    have hj := joinAnd_quotes_even (c :: cs) (by rw [← h]; exact clause_quotes_even cc qp)
    rw [joinAnd_cons, countQuotes_append] at hj
    have h0 : countQuotes " and " = 0 := by decide
    have hw : countQuotes "WHERE " = 0 := by decide
    have hs : countQuotes " " = 0 := by decide
    simp [countQuotes_append, hw, hs]
    omega

/-!  Decimal rendering of a JS number (template interpolation of a
non-negative integer). -/

/-- Accumulator-based decimal digits (fuel-based structural recursion,
`fuel = n + 1` always suffices). -/
def natToCharsAux : Nat → Nat → List Char → List Char
  | 0, _, acc => acc
  | fuel + 1, n, acc =>
    let d := Nat.digitChar (n % 10)
    let m := n / 10
    if m = 0 then d :: acc else natToCharsAux fuel m (d :: acc)

/-- JS `String(n)` for a non-negative number. -/
def natToString (n : Nat) : String :=
  ⟨natToCharsAux (n + 1) n []⟩

/-!  The downstream query builders (src/xig.js lines 342-387); the JS
template literals are reproduced verbatim, including their indentation,
and `sql.trim()` is `jsTrim`. -/

/-- src/xig.js `buildResourceListQuery`. -/
def buildResourceListQuery (cc : ConfigCache) (qp : QueryParams) (offset limit : Nat) : String :=
  jsTrim ("\n    SELECT \n      ResourceKey,\n      ResourceType,\n      Type,\n      Kind,\n      Description,\n      PackageKey,\n      Realm,\n      Authority,\n      R2, R2B, R3, R4, R4B, R5, R6,\n      Id,\n      Url,\n      Version,\n      Status,\n      Date,\n      Name,\n      Title,\n      Content,\n      Supplements,\n      Details,\n      Web\n    FROM Resources\n    " ++
    buildSqlFilter cc qp ++
    "\n    ORDER BY ResourceType, Type, Description\n    LIMIT " ++ natToString limit ++
    " OFFSET " ++ natToString offset ++ "\n  ")

/-- src/xig.js `buildResourceCountQuery`. -/
def buildResourceCountQuery (cc : ConfigCache) (qp : QueryParams) : String :=
  jsTrim ("\n    SELECT COUNT(*) as total\n    FROM Resources\n    " ++
    buildSqlFilter cc qp ++ "\n  ")

/-- The version-breakdown count query of `buildSummaryStats`
(src/xig.js lines 701-706). -/
def versionAggSql (cc : ConfigCache) (qp : QueryParams) (version : String) : String :=
  if buildSqlFilter cc qp = "" then
    "SELECT COUNT(*) as count FROM Resources WHERE " ++ version ++ " = 1"
  else
    "SELECT COUNT(*) as count FROM Resources " ++ buildSqlFilter cc qp ++
      " AND " ++ version ++ " = 1"

/-- The authority-breakdown aggregate query of `buildSummaryStats`
(src/xig.js lines 729-734). -/
def authorityAggSql (cc : ConfigCache) (qp : QueryParams) : String :=
  if buildSqlFilter cc qp = "" then
    "SELECT Authority, COUNT(*) as count FROM Resources GROUP BY Authority ORDER BY Authority"
  else
    "SELECT Authority, COUNT(*) as count FROM Resources " ++ buildSqlFilter cc qp ++
      " GROUP BY Authority ORDER BY Authority"

/-- The realm-breakdown aggregate query of `buildSummaryStats`
(src/xig.js lines 762-767). -/
def realmAggSql (cc : ConfigCache) (qp : QueryParams) : String :=
  if buildSqlFilter cc qp = "" then
    "SELECT Realm, COUNT(*) as count FROM Resources GROUP BY Realm ORDER BY Realm"
  else
    "SELECT Realm, COUNT(*) as count FROM Resources " ++ buildSqlFilter cc qp ++
      " GROUP BY Realm ORDER BY Realm"

/-- Modelled from the spec: "Each non-empty facet value is
escaped/parameterized before use in any query text; raw values are never
concatenated unescaped."  This variant computes the escaped form of each
string-valued facet first and only ever concatenates those pre-escaped
values into the query text (the `rt` known-value checks, as in the
source, test the raw value). -/
def buildSqlFilterEscFirst (cc : ConfigCache) (qp : QueryParams) : String :=
  let realmE := sqlEscapeString qp.realm
  let authE := sqlEscapeString qp.auth
  let rtE := sqlEscapeString qp.rt
  let textE := sqlEscapeString qp.text
  let filter :=
    (if qp.realm != "" then " and realm = '" ++ realmE ++ "'" else "") ++
    (if qp.auth != "" then " and authority = '" ++ authE ++ "'" else "") ++
    verPart qp ++
    (if qp.type = "cs" then " and ResourceType = 'CodeSystem'"
    else if qp.type = "rp" then
      " and ResourceType = 'StructureDefinition' and kind = 'resource'" ++
      (if qp.rt != "" && hasCachedValue cc "profileResources" qp.rt then
        " and Type = '" ++ rtE ++ "'"
      else "")
    else if qp.type = "dp" then
      " and ResourceType = 'StructureDefinition' and (kind = 'complex-type' or kind = 'primitive-type')" ++
      (if qp.rt != "" && hasCachedValue cc "profileTypes" qp.rt then
        " and Type = '" ++ rtE ++ "'"
      else "")
    else if qp.type = "lm" then " and ResourceType = 'StructureDefinition' and kind = 'logical'"
    else if qp.type = "ext" then
      " and ResourceType = 'StructureDefinition' and (Type = 'Extension')" ++
      (if qp.rt != "" && hasCachedValue cc "extensionContexts" qp.rt then
        " and ResourceKey in (Select ResourceKey from Categories where Mode = 2 and Code = '" ++
          rtE ++ "')"
      else "")
    else if qp.type = "vs" then
      " and ResourceType = 'ValueSet'" ++
      (if qp.rt != "" && hasTerminologySource cc qp.rt then
        " and ResourceKey in (Select ResourceKey from Categories where Mode = 1 and Code = '" ++
          rtE ++ "')"
      else "")
    else if qp.type = "cm" then
      " and ResourceType = 'ConceptMap'" ++
      (if qp.rt != "" && hasTerminologySource cc qp.rt then
        " and ResourceKey in (Select ResourceKey from Categories where Mode = 1 and Code = '" ++
          rtE ++ "')"
      else "")
    else
      if qp.rt != "" && hasCachedValue cc "resourceTypes" qp.rt then
        " and ResourceType = '" ++ rtE ++ "'"
      else "") ++
    (if qp.text != "" then
      if qp.type = "cs" then
        " and (ResourceKey in (select ResourceKey from ResourceFTS where Description match '" ++
          textE ++ "' or Narrative match '" ++ textE ++ "') " ++
          "or ResourceKey in (select ResourceKey from CodeSystemFTS where Display match '" ++
          textE ++ "' or Definition match '" ++ textE ++ "'))"
      else
        " and ResourceKey in (select ResourceKey from ResourceFTS where Description match '" ++
          textE ++ "' or Narrative match '" ++ textE ++ "')"
    else "")
  if filter != "" then "WHERE " ++ jsSubstringFrom filter 4 else filter

theorem buildSqlFilterEscFirst_eq (cc : ConfigCache) (qp : QueryParams) :
    buildSqlFilter cc qp = buildSqlFilterEscFirst cc qp := by
  rfl

/-- When the `rt` refinement fails its branch's known-value check, the
type fragment is the one produced with `rt` absent. -/
theorem typePart_rt_dropped (cc : ConfigCache) (qp : QueryParams)
    (h : rtAccepted cc qp.type qp.rt = false) :
    typePart cc qp = typePart cc { qp with rt := "" } := by
  by_cases h1 : qp.type = "cs"
  · simp [typePart, h1]
  · by_cases h2 : qp.type = "rp"
    · simp [rtAccepted, h1, h2] at h
      simp [typePart, h1, h2, h]
    · by_cases h3 : qp.type = "dp"
      · simp [rtAccepted, h1, h2, h3] at h
        simp [typePart, h1, h2, h3, h]
      · by_cases h4 : qp.type = "lm"
        · simp [typePart, h1, h2, h3, h4]
        · by_cases h5 : qp.type = "ext"
          · simp [rtAccepted, h1, h2, h3, h4, h5] at h
            simp [typePart, h1, h2, h3, h4, h5, h]
          · by_cases h6 : qp.type = "vs"
            · simp [rtAccepted, h1, h2, h3, h4, h5, h6] at h
              simp [typePart, h1, h2, h3, h4, h5, h6, h]
            · by_cases h7 : qp.type = "cm"
              · simp [rtAccepted, h1, h2, h3, h4, h5, h6, h7] at h
                simp [typePart, h1, h2, h3, h4, h5, h6, h7, h]
              · simp [rtAccepted, h1, h2, h3, h4, h5, h6, h7] at h
                simp [typePart, h1, h2, h3, h4, h5, h6, h7, h]

/-- Dropping an unknown `rt` refinement value yields exactly the filter
compiled with `rt` omitted. -/
theorem buildSqlFilter_rt_dropped (cc : ConfigCache) (qp : QueryParams)
    (h : rtAccepted cc qp.type qp.rt = false) :
    buildSqlFilter cc qp = buildSqlFilter cc { qp with rt := "" } := by
  have ht := typePart_rt_dropped cc qp h
  simp only [buildSqlFilter, rawSqlFilter, realmPart, authPart, verPart, textPart, ht]

/-!  Head/last-character facts used to push `jsTrim` through the SQL
templates. -/

/-- The string is non-empty and starts with a non-whitespace character. -/
def headNonWS (s : String) : Prop :=
  ∃ c0 t, s.data = c0 :: t ∧ isJsWS c0 = false

/-- The string is non-empty and ends with a non-whitespace character. -/
def lastNonWS (s : String) : Prop :=
  ∃ cl, s.data.getLast? = some cl ∧ isJsWS cl = false

theorem headNonWS_of_check (s : String)
    (h : (match s.data.head? with | some c => !isJsWS c | none => false) = true) :
    headNonWS s := by
  cases hd : s.data with
  | nil => rw [hd] at h; simp at h
  | cons c t =>
    rw [hd] at h
    simp only [List.head?] at h
    exact ⟨c, t, hd, by simpa using h⟩

theorem lastNonWS_of_check (s : String)
    (h : (match s.data.getLast? with | some c => !isJsWS c | none => false) = true) :
    lastNonWS s := by
  cases hl : s.data.getLast? with
  | none => rw [hl] at h; simp at h
  | some c =>
    rw [hl] at h
    exact ⟨c, hl, by simpa using h⟩

theorem headNonWS_append (x y : String) (h : headNonWS x) : headNonWS (x ++ y) := by
  obtain ⟨c0, t, hd, hws⟩ := h
  exact ⟨c0, t ++ y.data, by rw [data_append, hd]; rfl, hws⟩

theorem getLast?_append_ne {α : Type} (xs ys : List α) (h : ys ≠ []) :
    (xs ++ ys).getLast? = ys.getLast? := by
  induction xs with
  | nil => rfl
  | cons x xs ih =>
    have hne : xs ++ ys ≠ [] := by
      intro hxy
      rcases List.append_eq_nil.mp hxy with ⟨-, h2⟩
      exact h h2
    cases hxy : xs ++ ys with
    | nil => exact absurd hxy hne
    | cons b l =>
      rw [List.cons_append, hxy, List.getLast?_cons_cons, ← hxy, ih]

theorem lastNonWS_append (x y : String) (h : lastNonWS y) : lastNonWS (x ++ y) := by
  obtain ⟨cl, hl, hws⟩ := h
  have hne : y.data ≠ [] := by
    intro hy; rw [hy] at hl; simp [List.getLast?] at hl
  exact ⟨cl, by rw [data_append, getLast?_append_ne _ _ hne]; exact hl, hws⟩

theorem dropWhile_append_all (p : Char → Bool) (xs ys : List Char)
    (h : ∀ c ∈ xs, p c = true) : List.dropWhile p (xs ++ ys) = List.dropWhile p ys := by
  induction xs with
  | nil => rfl
  | cons x xs ih =>
    rw [List.cons_append, List.dropWhile_cons]
    simp [h x (by simp), ih (fun c hc => h c (by simp [hc]))]

theorem dropWhile_head_neg (p : Char → Bool) (x : Char) (xs : List Char)
    (h : p x = false) : List.dropWhile p (x :: xs) = x :: xs := by
  rw [List.dropWhile_cons, h]
  simp

/-- Applying `jsTrim` to whitespace + a core with non-whitespace first and last
characters + whitespace is the core. -/
theorem jsTrim_sandwich_str (a core b : String)
    (ha : ∀ c ∈ a.data, isJsWS c = true) (hb : ∀ c ∈ b.data, isJsWS c = true)
    (h0 : headNonWS core) (hl : lastNonWS core) :
    jsTrim (a ++ core ++ b) = core := by
  obtain ⟨c0, t, hd, hc0⟩ := h0
  obtain ⟨cl, hcl, hclws⟩ := hl
  apply strExt
  show (((a ++ core ++ b).data.dropWhile isJsWS).reverse.dropWhile isJsWS).reverse = core.data
  have hdata : (a ++ core ++ b).data = a.data ++ (core.data ++ b.data) := by
    rw [data_append, data_append, List.append_assoc]
  rw [hdata, dropWhile_append_all _ _ _ ha, hd, List.cons_append,
    dropWhile_head_neg _ _ _ hc0]
  have hrev : (c0 :: (t ++ b.data)).reverse = b.data.reverse ++ (c0 :: t).reverse := by
    rw [List.reverse_cons, List.reverse_append, List.append_assoc, ← List.reverse_cons]
  rw [hrev, dropWhile_append_all _ _ _ (fun c hc => hb c (List.mem_reverse.mp hc))]
  have hcr : (c0 :: t).reverse.head? = some cl := by
    rw [List.head?_reverse, ← hd]
    exact hcl
  cases hrv : (c0 :: t).reverse with
  | nil => simp at hrv
  | cons x u =>
    rw [hrv] at hcr
    simp only [List.head?] at hcr
    have hx : x = cl := by injection hcr
    rw [dropWhile_head_neg _ _ _ (hx ▸ hclws), ← hrv, List.reverse_reverse, ← hd]

theorem digitChar_not_ws : ∀ k, k < 10 → isJsWS (Nat.digitChar k) = false := by decide

theorem natToCharsAux_getLast (fuel : Nat) :
    ∀ (n : Nat) (acc : List Char), acc ≠ [] →
      (natToCharsAux fuel n acc).getLast? = acc.getLast? := by
  induction fuel with
  | zero => intro n acc hacc; rfl
  | succ fuel ih =>
    intro n acc hacc
    show (if n / 10 = 0 then Nat.digitChar (n % 10) :: acc
      else natToCharsAux fuel (n / 10) (Nat.digitChar (n % 10) :: acc)).getLast? = acc.getLast?
    have hcons : (Nat.digitChar (n % 10) :: acc).getLast? = acc.getLast? := by
      cases acc with
      | nil => exact absurd rfl hacc
      | cons a as => rw [List.getLast?_cons_cons]
    split
    · exact hcons
    · rw [ih (n / 10) _ (by simp)]
      exact hcons

theorem natToString_lastNonWS (n : Nat) : lastNonWS (natToString n) := by
  refine ⟨Nat.digitChar (n % 10), ?_, digitChar_not_ws _ (Nat.mod_lt _ (by omega))⟩
  show (natToCharsAux (n + 1) n []).getLast? = _
  show (if n / 10 = 0 then Nat.digitChar (n % 10) :: []
    else natToCharsAux n (n / 10) (Nat.digitChar (n % 10) :: [])).getLast? = _
  split
  · rfl
  · rw [natToCharsAux_getLast n (n / 10) _ (by simp)]
    rfl

/-- Every applied clause ends in a non-whitespace character (a quote, a
digit or a closing parenthesis). -/
theorem clause_lastNonWS (cc : ConfigCache) (qp : QueryParams) :
    ∀ c ∈ sqlClauses cc qp, lastNonWS c := by
  intro c hc
  simp only [sqlClauses, List.mem_append] at hc
  rcases hc with ((((h | h) | h) | h) | h)
  · simp only [realmClauses] at h
    split_ifs at h <;> simp at h
    subst h
    exact lastNonWS_append _ _ (lastNonWS_of_check _ (by decide))
  · simp only [authClauses] at h
    split_ifs at h <;> simp at h
    subst h
    exact lastNonWS_append _ _ (lastNonWS_of_check _ (by decide))
  · simp only [verClauses] at h
    split_ifs at h <;> simp at h <;> subst h <;> exact lastNonWS_of_check _ (by decide)
  · simp only [typeClauses] at h
    split_ifs at h <;> simp at h <;>
      (first
        | (rcases h with rfl | rfl | rfl)
        | (rcases h with rfl | rfl)
        | subst h) <;>
      (first
        | exact lastNonWS_of_check _ (by decide)
        | exact lastNonWS_append _ _ (lastNonWS_of_check _ (by decide)))
  · simp only [textClauses] at h
    split_ifs at h <;> simp at h <;> subst h <;>
      exact lastNonWS_append _ _ (lastNonWS_of_check _ (by decide))

theorem andIntercalate_lastNonWS (l : List String) (hne : l ≠ [])
    (h : ∀ c ∈ l, lastNonWS c) : lastNonWS (andIntercalate l) := by
  induction l with
  | nil => exact absurd rfl hne
  | cons c cs ih =>
    cases cs with
    | nil => exact h c (by simp)
    | cons d ds =>
      show lastNonWS (c ++ " and " ++ andIntercalate (d :: ds))
      rw [strAppend_assoc]
      exact lastNonWS_append _ _
        (lastNonWS_append _ _ (ih (by simp) (fun x hx => h x (by simp at hx ⊢; tauto))))

/-- A non-empty compiled filter ends in a non-whitespace character. -/
theorem buildSqlFilter_lastNonWS (cc : ConfigCache) (qp : QueryParams)
    (h : sqlClauses cc qp ≠ []) : lastNonWS (buildSqlFilter cc qp) := by
  rw [(buildSqlFilter_shape cc qp).2 h]
  exact lastNonWS_append _ _
    (lastNonWS_append _ _ (andIntercalate_lastNonWS _ h (clause_lastNonWS cc qp)))

/-- With no applied clause, the count query is the bare template. -/
theorem buildResourceCountQuery_empty (cc : ConfigCache) (qp : QueryParams)
    (h : sqlClauses cc qp = []) :
    buildResourceCountQuery cc qp = "SELECT COUNT(*) as total\n    FROM Resources" := by
  unfold buildResourceCountQuery
  rw [(buildSqlFilter_shape cc qp).1 h]
  decide

set_option maxRecDepth 16384 in
set_option maxHeartbeats 1600000 in
/-- With at least one applied clause, the count query is the template
with the filter interpolated directly after `FROM Resources`. -/
theorem buildResourceCountQuery_filtered (cc : ConfigCache) (qp : QueryParams)
    (h : sqlClauses cc qp ≠ []) :
    buildResourceCountQuery cc qp =
      "SELECT COUNT(*) as total\n    FROM Resources\n    " ++ buildSqlFilter cc qp := by
  unfold buildResourceCountQuery
  have hsplit : ("\n    SELECT COUNT(*) as total\n    FROM Resources\n    " : String) =
      "\n    " ++ "SELECT COUNT(*) as total\n    FROM Resources\n    " := by decide
  rw [hsplit, strAppend_assoc]
  exact jsTrim_sandwich_str "\n    " _ "\n  " (by decide) (by decide)
    (headNonWS_append _ _
      (headNonWS_of_check "SELECT COUNT(*) as total\n    FROM Resources\n    " (by decide)))
    (lastNonWS_append _ _ (buildSqlFilter_lastNonWS cc qp h))

set_option maxRecDepth 65536 in
set_option maxHeartbeats 1000000 in
/-- Re-association of the list-query template around the interpolated
pieces. -/
theorem listQueryArg_eq (f nL nO : String) :
    ("\n    SELECT \n      ResourceKey,\n      ResourceType,\n      Type,\n      Kind,\n      Description,\n      PackageKey,\n      Realm,\n      Authority,\n      R2, R2B, R3, R4, R4B, R5, R6,\n      Id,\n      Url,\n      Version,\n      Status,\n      Date,\n      Name,\n      Title,\n      Content,\n      Supplements,\n      Details,\n      Web\n    FROM Resources\n    " ++ f ++
      "\n    ORDER BY ResourceType, Type, Description\n    LIMIT " ++ nL ++
      " OFFSET " ++ nO ++ "\n  ") =
    "\n    " ++
      ("SELECT \n      ResourceKey,\n      ResourceType,\n      Type,\n      Kind,\n      Description,\n      PackageKey,\n      Realm,\n      Authority,\n      R2, R2B, R3, R4, R4B, R5, R6,\n      Id,\n      Url,\n      Version,\n      Status,\n      Date,\n      Name,\n      Title,\n      Content,\n      Supplements,\n      Details,\n      Web\n    FROM Resources\n    " ++
        (f ++
          ("\n    ORDER BY ResourceType, Type, Description\n    LIMIT " ++
            (nL ++ (" OFFSET " ++ nO))))) ++ "\n  " := by
  have hsplit : ("\n    SELECT \n      ResourceKey,\n      ResourceType,\n      Type,\n      Kind,\n      Description,\n      PackageKey,\n      Realm,\n      Authority,\n      R2, R2B, R3, R4, R4B, R5, R6,\n      Id,\n      Url,\n      Version,\n      Status,\n      Date,\n      Name,\n      Title,\n      Content,\n      Supplements,\n      Details,\n      Web\n    FROM Resources\n    " : String) =
      "\n    " ++ "SELECT \n      ResourceKey,\n      ResourceType,\n      Type,\n      Kind,\n      Description,\n      PackageKey,\n      Realm,\n      Authority,\n      R2, R2B, R3, R4, R4B, R5, R6,\n      Id,\n      Url,\n      Version,\n      Status,\n      Date,\n      Name,\n      Title,\n      Content,\n      Supplements,\n      Details,\n      Web\n    FROM Resources\n    " := by rfl
  rw [hsplit]
  simp only [strAppend_assoc]

set_option maxRecDepth 65536 in
set_option maxHeartbeats 1000000 in
/-- The first character of the list-query template body is a
non-whitespace `S`. -/
theorem listQueryHead :
    headNonWS ("SELECT \n      ResourceKey,\n      ResourceType,\n      Type,\n      Kind,\n      Description,\n      PackageKey,\n      Realm,\n      Authority,\n      R2, R2B, R3, R4, R4B, R5, R6,\n      Id,\n      Url,\n      Version,\n      Status,\n      Date,\n      Name,\n      Title,\n      Content,\n      Supplements,\n      Details,\n      Web\n    FROM Resources\n    " : String) := by
  have h2 : ("SELECT \n      ResourceKey,\n      ResourceType,\n      Type,\n      Kind,\n      Description,\n      PackageKey,\n      Realm,\n      Authority,\n      R2, R2B, R3, R4, R4B, R5, R6,\n      Id,\n      Url,\n      Version,\n      Status,\n      Date,\n      Name,\n      Title,\n      Content,\n      Supplements,\n      Details,\n      Web\n    FROM Resources\n    " : String) =
      "SELECT " ++ "\n      ResourceKey,\n      ResourceType,\n      Type,\n      Kind,\n      Description,\n      PackageKey,\n      Realm,\n      Authority,\n      R2, R2B, R3, R4, R4B, R5, R6,\n      Id,\n      Url,\n      Version,\n      Status,\n      Date,\n      Name,\n      Title,\n      Content,\n      Supplements,\n      Details,\n      Web\n    FROM Resources\n    " := by rfl
  rw [h2]
  exact headNonWS_append "SELECT " "\n      ResourceKey,\n      ResourceType,\n      Type,\n      Kind,\n      Description,\n      PackageKey,\n      Realm,\n      Authority,\n      R2, R2B, R3, R4, R4B, R5, R6,\n      Id,\n      Url,\n      Version,\n      Status,\n      Date,\n      Name,\n      Title,\n      Content,\n      Supplements,\n      Details,\n      Web\n    FROM Resources\n    "
    (headNonWS_of_check "SELECT " (by decide))

set_option maxRecDepth 65536 in
set_option maxHeartbeats 1000000 in
/-- With at least one applied clause, the list query is the template with
the filter interpolated directly after `FROM Resources`, followed by the
fixed ordering and the `LIMIT`/`OFFSET` values. -/
theorem buildResourceListQuery_filtered (cc : ConfigCache) (qp : QueryParams)
    (offset limit : Nat) (h : sqlClauses cc qp ≠ []) :
    buildResourceListQuery cc qp offset limit =
      "SELECT \n      ResourceKey,\n      ResourceType,\n      Type,\n      Kind,\n      Description,\n      PackageKey,\n      Realm,\n      Authority,\n      R2, R2B, R3, R4, R4B, R5, R6,\n      Id,\n      Url,\n      Version,\n      Status,\n      Date,\n      Name,\n      Title,\n      Content,\n      Supplements,\n      Details,\n      Web\n    FROM Resources\n    " ++
      (buildSqlFilter cc qp ++
        ("\n    ORDER BY ResourceType, Type, Description\n    LIMIT " ++
          (natToString limit ++ (" OFFSET " ++ natToString offset)))) := by
  unfold buildResourceListQuery
  rw [listQueryArg_eq (buildSqlFilter cc qp) (natToString limit) (natToString offset)]
  exact jsTrim_sandwich_str "\n    " _ "\n  " (by decide) (by decide)
    (headNonWS_append _ _ listQueryHead)
    (lastNonWS_append _ _ (lastNonWS_append _ _ (lastNonWS_append _ _
      (lastNonWS_append _ _ (lastNonWS_append _ _ (natToString_lastNonWS offset))))))

/-!  The summary-statistics builder (src/xig.js lines 682-831) as a pure
function.  The SQLite connection is abstracted as an oracle from query
text to results (`db.get` returning a count, `db.all` returning
value/count rows, a NULL column value being `none`); per the error model
of the spec's QueryFailure handling, the oracle is total, so the `catch`
branches that only render an error note are not taken.  `escapeHtml`,
`encodeURIComponent` and `Number.toLocaleString` (en-US grouping) are
embedded below since the rendered items pass through them. -/

/-- The double-quote character. -/
def dquote : Char := Char.ofNat 34

/-- src/xig.js `escapeHtml` character map. -/
def escHtmlChar (c : Char) : List Char :=
  if c = '&' then "&amp;".data
  else if c = '<' then "&lt;".data
  else if c = '>' then "&gt;".data
  else if c = dquote then "&quot;".data
  else if c = squote then "&#39;".data
  else [c]

/-- src/xig.js `escapeHtml` (on strings). -/
def escapeHtml (s : String) : String :=
  ⟨s.data.foldr (fun c acc => escHtmlChar c ++ acc) []⟩

/-- Characters `encodeURIComponent` leaves unencoded. -/
def isUnreservedUri (c : Char) : Bool :=
  c.isAlpha || c.isDigit || c = '-' || c = '_' || c = '.' || c = '!' || c = '~' ||
    c = '*' || c = squote || c = '(' || c = ')'

/-- UTF-8 bytes of a code point. -/
def utf8Bytes (c : Char) : List Nat :=
  let n := c.toNat
  if n < 128 then [n]
  else if n < 2048 then [192 + n / 64, 128 + n % 64]
  else if n < 65536 then [224 + n / 4096, 128 + (n / 64) % 64, 128 + n % 64]
  else [240 + n / 262144, 128 + (n / 4096) % 64, 128 + (n / 64) % 64, 128 + n % 64]

/-- Upper-case hexadecimal digit. -/
def hexDigitUpper (n : Nat) : Char :=
  if n < 10 then Nat.digitChar n else Char.ofNat (55 + n)

/-- Percent-encoding of one character. -/
def pctEncodeChar (c : Char) : List Char :=
  if isUnreservedUri c then [c]
  else (utf8Bytes c).foldr (fun b acc => '%' :: hexDigitUpper (b / 16) :: hexDigitUpper (b % 16) :: acc) []

/-- JS `encodeURIComponent`. -/
def encodeURIComponent (s : String) : String :=
  ⟨s.data.foldr (fun c acc => pctEncodeChar c ++ acc) []⟩

/-- Comma insertion over reversed digits (`toLocaleString` grouping). -/
def commaRev : List Char → Nat → List Char
  | [], _ => []
  | c :: cs, i =>
    if 0 < i ∧ i % 3 = 0 then ',' :: c :: commaRev cs (i + 1) else c :: commaRev cs (i + 1)

/-- JS `n.toLocaleString()` for a non-negative count (en-US digit grouping). -/
def numToLocale (n : Nat) : String :=
  ⟨(commaRev (natToString n).data.reverse 0).reverse⟩

/-- The SQLite connection seen by the summary builder: `get` returns the
single count of a count query, `all` the `(value, count)` rows of a
grouped aggregate (a NULL group value is `none`). -/
structure DbOracle where
  get : String → Nat
  all : String → List (Option String × Nat)

/-- The query-parameter object in route insertion order (src/xig.js
lines 1880-1888), as enumerated by `Object.keys` in the link builders. -/
def paramPairs (qp : QueryParams) : List (String × String) :=
  [("ver", qp.ver), ("auth", qp.auth), ("realm", qp.realm), ("type", qp.type),
    ("rt", qp.rt), ("text", qp.text), ("offset", qp.offset)]

/-- JS `join` with separator "&". -/
def joinSep (sep : String) : List String → String
  | [] => ""
  | [x] => x
  | x :: xs => x ++ sep ++ joinSep sep xs

/-- The `filter`/`map`/`join` pipeline shared by the link builders
(src/xig.js lines 806-831): keep non-empty values, render
`key=encodeURIComponent(value)`, join with `&`. -/
def buildQueryString (pairs : List (String × String)) : String :=
  joinSep "&" ((pairs.filter (fun p => p.2 != "")).map
    (fun p => p.1 ++ "=" ++ encodeURIComponent p.2))

/-- src/xig.js `buildVersionLinkUrl`. -/
def buildVersionLinkUrl (baseUrl : String) (qp : QueryParams) (version : String) : String :=
  let qs := buildQueryString (paramPairs { qp with ver := version })
  baseUrl ++ (if qs != "" then "?" ++ qs else "")

/-- src/xig.js `buildAuthorityLinkUrl`. -/
def buildAuthorityLinkUrl (baseUrl : String) (qp : QueryParams) (authority : String) : String :=
  let qs := buildQueryString (paramPairs { qp with auth := authority })
  baseUrl ++ (if qs != "" then "?" ++ qs else "")

/-- src/xig.js `buildRealmLinkUrl`. -/
def buildRealmLinkUrl (baseUrl : String) (qp : QueryParams) (realm : String) : String :=
  let qs := buildQueryString (paramPairs { qp with realm := realm })
  baseUrl ++ (if qs != "" then "?" ++ qs else "")

/-- The `<li>` items of the version breakdown (src/xig.js lines 698-720):
one count query per cached version flag. -/
def versionItems (db : DbOracle) (cc : ConfigCache) (qp : QueryParams) (baseUrl : String) : String :=
  (getCachedSet cc "versions").foldl (fun html version =>
    html ++ "<li><a href=\"" ++ buildVersionLinkUrl baseUrl qp version ++ "\">" ++
      escapeHtml version ++ "</a>: " ++ numToLocale (db.get (versionAggSql cc qp version)) ++
      "</li>") ""

/-- The version-breakdown block (rendered only when no `ver` facet is
applied). -/
def versionSection (db : DbOracle) (cc : ConfigCache) (qp : QueryParams) (baseUrl : String) : String :=
  "<p><strong>By Version</strong></p>" ++
  "<ul style=\"columns: 4; -webkit-columns: 4; -moz-columns: 4\">" ++
  versionItems db cc qp baseUrl ++ "</ul>"

/-- One `<li>` of the authority breakdown (src/xig.js lines 743-753). -/
def authorityItem (baseUrl : String) (qp : QueryParams) (row : Option String × Nat) : String :=
  match row.1 with
  | none => "<li>none: " ++ numToLocale row.2 ++ "</li>"
  | some authority =>
    if authority = "" then "<li>none: " ++ numToLocale row.2 ++ "</li>"
    else
      "<li><a href=\"" ++ buildAuthorityLinkUrl baseUrl qp authority ++ "\">" ++
        escapeHtml authority ++ "</a>: " ++ numToLocale row.2 ++ "</li>"

/-- The authority-breakdown block (rendered only when no `auth` facet is
applied). -/
def authoritySection (db : DbOracle) (cc : ConfigCache) (qp : QueryParams) (baseUrl : String) : String :=
  "<p><strong>By Authority</strong></p>" ++
  "<ul style=\"columns: 4; -webkit-columns: 4; -moz-columns: 4\">" ++
  ((db.all (authorityAggSql cc qp)).foldl (fun html row => html ++ authorityItem baseUrl qp row) "") ++
  "</ul>"

/-- One step of the realm `forEach` (src/xig.js lines 777-789): the
accumulator carries the rendered items and the counter `c` of realm
codes longer than 3 characters, which are skipped rather than
rendered. -/
def realmStep (baseUrl : String) (qp : QueryParams) (acc : String × Nat)
    (row : Option String × Nat) : String × Nat :=
  match row.1 with
  | none => (acc.1 ++ "<li>none: " ++ numToLocale row.2 ++ "</li>", acc.2)
  | some realmCode =>
    if realmCode = "" then (acc.1 ++ "<li>none: " ++ numToLocale row.2 ++ "</li>", acc.2)
    else if realmCode.length > 3 then (acc.1, acc.2 + 1)
    else
      (acc.1 ++ "<li><a href=\"" ++ buildRealmLinkUrl baseUrl qp realmCode ++ "\">" ++
        escapeHtml realmCode ++ "</a>: " ++ numToLocale row.2 ++ "</li>", acc.2)

/-- The realm `forEach` over the grouped rows. -/
def realmAccum (baseUrl : String) (qp : QueryParams)
    (rows : List (Option String × Nat)) : String × Nat :=
  rows.foldl (realmStep baseUrl qp) ("", 0)

/-- The realm-breakdown block (rendered only when no `realm` facet is
applied): the per-realm items, then, when any long code was seen, a
single `other` item carrying the counter `c` (src/xig.js lines 790-792,
interpolated with plain `${c}`). -/
def realmSection (db : DbOracle) (cc : ConfigCache) (qp : QueryParams) (baseUrl : String) : String :=
  let res := realmAccum baseUrl qp (db.all (realmAggSql cc qp))
  "<p><strong>By Realm</strong></p>" ++
  "<ul style=\"columns: 4; -webkit-columns: 4; -moz-columns: 4\">" ++
  res.1 ++ (if res.2 > 0 then "<li>other: " ++ natToString res.2 ++ "</li>" else "") ++
  "</ul>"

/-- src/xig.js `buildSummaryStats`: the wrapper div with each breakdown
present exactly when its own facet is empty. -/
def buildSummaryStats (db : DbOracle) (cc : ConfigCache) (qp : QueryParams) (baseUrl : String) : String :=
  "<div style=\"background-color:rgb(254, 250, 198); border: 1px black solid; padding: 6px; font-size: 12px; font-family: verdana;\">" ++
  (if qp.ver = "" then versionSection db cc qp baseUrl else "") ++
  (if qp.auth = "" then authoritySection db cc qp baseUrl else "") ++
  (if qp.realm = "" then realmSection db cc qp baseUrl else "") ++
  "</div><p>&nbsp;</p>"

/-- A grouped realm row whose code is non-empty and longer than 3
characters (the rows the realm breakdown buckets into `other`). -/
def isLongRealmRow (row : Option String × Nat) : Bool :=
  match row.1 with
  | none => false
  | some code => if code = "" then false else decide (code.length > 3)

/-- The `<li>` a non-long realm row renders to. -/
def shortRealmItem (baseUrl : String) (qp : QueryParams) (row : Option String × Nat) : String :=
  match row.1 with
  | none => "<li>none: " ++ numToLocale row.2 ++ "</li>"
  | some realmCode =>
    if realmCode = "" then "<li>none: " ++ numToLocale row.2 ++ "</li>"
    else
      "<li><a href=\"" ++ buildRealmLinkUrl baseUrl qp realmCode ++ "\">" ++
        escapeHtml realmCode ++ "</a>: " ++ numToLocale row.2 ++ "</li>"

/-- Concatenation of rendered items. -/
def strConcat : List String → String :=
  fun l => l.foldr (· ++ ·) ""

theorem realmAccum_general (baseUrl : String) (qp : QueryParams)
    (rows : List (Option String × Nat)) :
    ∀ (h : String) (n : Nat),
      rows.foldl (realmStep baseUrl qp) (h, n) =
        (h ++ strConcat ((rows.filter (fun r => !isLongRealmRow r)).map (shortRealmItem baseUrl qp)),
          n + (rows.filter isLongRealmRow).length) := by
  induction rows with
  | nil => intro h n; simp [strConcat, strAppend_empty]
  | cons row rest ih =>
    intro h n
    rw [List.foldl_cons]
    cases hv : row.1 with
    | none =>
      rw [ih]
      have : isLongRealmRow row = false := by simp [isLongRealmRow, hv]
      simp [this, List.filter_cons, strConcat, shortRealmItem, hv, realmStep, strAppend_assoc]
    | some code =>
      by_cases hc : code = ""
      · rw [ih]
        have : isLongRealmRow row = false := by simp [isLongRealmRow, hv, hc]
        simp [this, List.filter_cons, strConcat, shortRealmItem, hv, hc, realmStep, strAppend_assoc]
      · by_cases hlen : code.length > 3
        · rw [ih]
          have : isLongRealmRow row = true := by simp [isLongRealmRow, hv, hc, hlen]
          simp [this, List.filter_cons, realmStep, hv, hc, hlen]
          omega
        · rw [ih]
          have : isLongRealmRow row = false := by simp [isLongRealmRow, hv, hc, hlen]
          simp [this, List.filter_cons, strConcat, shortRealmItem, hv, hc, hlen, realmStep,
            strAppend_assoc]

/-- The realm `forEach`, characterized: the rendered items are exactly
those of the non-long rows in order, and the counter is the number of
long rows (one per grouped row, regardless of its record count). -/
theorem realmAccum_spec (baseUrl : String) (qp : QueryParams)
    (rows : List (Option String × Nat)) :
    realmAccum baseUrl qp rows =
      (strConcat ((rows.filter (fun r => !isLongRealmRow r)).map (shortRealmItem baseUrl qp)),
        (rows.filter isLongRealmRow).length) := by
  rw [realmAccum, realmAccum_general]
  rw [strEmpty_append]
  simp

/-!  The dataset lifecycle (src/xig.js lines 1250-1600) as explicit state
passing.  The process-wide mutable state is the canonical dataset file,
a temporary download file, the open SQLite connection (`xigDb`), the
`cacheLoadInProgress` flag and the published `configCache`.  The outside
world (network success, filesystem operation success, SQLite open
success, and the dataset's rows) is an environment record; one refresh
is a deterministic function of environment and state.  File and
connection contents are identified by a `Nat` tag. -/

/-- Observable side effects of a refresh, in execution order. -/
inductive RefreshAction where
  | downloadStart
  | downloadDone
  | validateFile
  | closeConn
  | deleteCanonical
  | renameTmp
  | openConn
  | rebuildCache
  | rebuildSkipped
  | rebuildFailed
  | removeTmp
deriving DecidableEq, Repr

/-- One package row of the dataset (`SELECT PackageKey, Id, PID, Web,
Canonical FROM Packages`). -/
structure PackageRow where
  packageKey : Nat
  id : String
  pid : String
  web : String
  canonical : String
deriving DecidableEq, Repr

/-- The rows the cache loader reads from the dataset. -/
structure Dataset where
  metadata : List (String × String)
  realms : List String
  authorities : List String
  packages : List PackageRow
  resourcesTableExists : Bool
  profileResources : List String
  profileTypes : List String
  resourceTypes : List String
  extensionContexts : List String
  extensionTypes : List String
  txSources : List (String × String)
deriving DecidableEq, Repr

/-- The queries `loadConfigCache` awaits, in source order; a rebuild
failure is modelled as one of them rejecting. -/
inductive QueryId where
  | qMetadata
  | qRealms
  | qAuthorities
  | qPackages
  | qTableCheck
  | qProfileResources
  | qProfileTypes
  | qResourceTypes
  | qExtContexts
  | qExtTypes
  | qTxSources
deriving DecidableEq, Repr

/-- The environment of one refresh: which step succeeds, the content tag
of the downloaded file, and the dataset rows behind the connection. -/
structure Env where
  downloadOk : Bool
  newContent : Nat
  validateOk : Bool
  unlinkOk : Bool
  renameOk : Bool
  openOk : Bool
  failAt : Option QueryId
  dataset : Dataset
deriving Repr

/-- The shared mutable state of the module. -/
structure SysState where
  canonicalFile : Option Nat
  tmpFile : Option Nat
  xigDb : Option Nat
  cacheLoadInProgress : Bool
  configCache : ConfigCache
deriving DecidableEq, Repr

/-- JS `Set` insertion over a list: dedupe, keep first-insertion order. -/
def setAddAll (l : List String) : List String :=
  l.foldl (fun acc c => if acc.contains c then acc else acc ++ [c]) []

/-- JS `Map.set` over a pair list: later values replace earlier ones for
the same key, keeping the original position. -/
def mapPutAll (l : List (String × String)) : List (String × String) :=
  l.foldl (fun acc p =>
    if (acc.find? (fun q => q.1 = p.1)).isSome then
      acc.map (fun q => if q.1 = p.1 then (q.1, p.2) else q)
    else acc ++ [p]) []

/-- The replace of each hash in PID by a pipe. -/
def hashToPipe (s : String) : String :=
  ⟨s.data.map (fun c => if c = hashChar then pipeChar else c)⟩

/-- The cached object built for one package row. -/
def packageObjOfRow (r : PackageRow) : PackageObj :=
  { packageKey := r.packageKey, id := r.id, pid := r.pid, web := r.web, canonical := r.canonical }

/-- The `packages` index (by PackageKey; `Map.set` upsert). -/
def packagesByKey (rows : List PackageRow) : List (Nat × PackageObj) :=
  rows.foldl (fun acc r =>
    if (acc.find? (fun q => q.1 = r.packageKey)).isSome then
      acc.map (fun q => if q.1 = r.packageKey then (q.1, packageObjOfRow r) else q)
    else acc ++ [(r.packageKey, packageObjOfRow r)]) []

/-- The `packagesById` index (by PID with `#` replaced by `|`; rows with
an empty PID are skipped). -/
def packagesById (rows : List PackageRow) : List (String × PackageObj) :=
  rows.foldl (fun acc r =>
    let pidKey := hashToPipe r.pid
    if pidKey = "" then acc
    else if (acc.find? (fun q => q.1 = pidKey)).isSome then
      acc.map (fun q => if q.1 = pidKey then (q.1, packageObjOfRow r) else q)
    else acc ++ [(pidKey, packageObjOfRow r)]) []

/-- Abort the cache build when the failing query is reached. -/
def chk (failAt : Option QueryId) (q : QueryId) : Option Unit :=
  if failAt = some q then none else some ()

/-- The cache object `loadConfigCache` builds (src/xig.js lines
1368-1513): every lookup table populated from the dataset, the fixed
`versions` set and `types` map appended, and `loaded` set to `true` only
on the fully built object.  `none` when the modelled failing query is
one of the queries that actually run (the three resource-derived
queries run only when the `Resources` table exists). -/
def buildCacheModel (failAt : Option QueryId) (d : Dataset) : Option ConfigCache := do
  (chk failAt QueryId.qMetadata)
  (chk failAt QueryId.qRealms)
  (chk failAt QueryId.qAuthorities)
  (chk failAt QueryId.qPackages)
  (chk failAt QueryId.qTableCheck)
  if d.resourcesTableExists then
    (chk failAt QueryId.qProfileResources)
    (chk failAt QueryId.qProfileTypes)
    (chk failAt QueryId.qResourceTypes)
  (chk failAt QueryId.qExtContexts)
  (chk failAt QueryId.qExtTypes)
  (chk failAt QueryId.qTxSources)
  some
    { loaded := true
      maps :=
        [("metadata", CacheTable.tmap (mapPutAll d.metadata)),
          ("realms", CacheTable.tset (setAddAll (d.realms.filter (fun c => c.length ≤ 3)))),
          ("authorities", CacheTable.tset (setAddAll d.authorities)),
          ("packages", CacheTable.tpackByKey (packagesByKey d.packages)),
          ("packagesById", CacheTable.tpackById (packagesById d.packages)),
          ("profileResources", CacheTable.tset (setAddAll
            (if d.resourcesTableExists then d.profileResources.filter (fun t => jsTrim t ≠ "") else []))),
          ("profileTypes", CacheTable.tset (setAddAll
            (if d.resourcesTableExists then d.profileTypes.filter (fun t => jsTrim t ≠ "") else []))),
          ("resourceTypes", CacheTable.tset (setAddAll
            (if d.resourcesTableExists then d.resourceTypes else []))),
          ("extensionContexts", CacheTable.tset (setAddAll d.extensionContexts)),
          ("extensionTypes", CacheTable.tset (setAddAll d.extensionTypes)),
          ("txSources", CacheTable.tmap (mapPutAll d.txSources)),
          ("versions", CacheTable.tset ["R2", "R2B", "R3", "R4", "R4B", "R5", "R6"]),
          ("types", CacheTable.tmap
            [("rp", "Resource Profiles"), ("dp", "Datatype Profiles"), ("ext", "Extensions"),
              ("lm", "Logical Models"), ("cs", "CodeSystems"), ("vs", "ValueSets"),
              ("cm", "ConceptMaps")])] }

/-- src/xig.js `loadConfigCache` (lines 1354-1529): skipped when a load
is already in progress or no connection is open; otherwise the new cache
is built off to the side and published by a single reference assignment,
or, when a query fails, the published cache is left untouched.  The
in-progress flag is reset in `finally`. -/
def loadConfigCacheModel (env : Env) (s : SysState) : SysState × List RefreshAction :=
  if s.cacheLoadInProgress then (s, [RefreshAction.rebuildSkipped])
  else if s.xigDb = none then (s, [])
  else
    match buildCacheModel env.failAt env.dataset with
    | none => ({ s with cacheLoadInProgress := false }, [RefreshAction.rebuildFailed])
    | some nc =>
      ({ s with configCache := nc, cacheLoadInProgress := false }, [RefreshAction.rebuildCache])

/-- src/xig.js `initializeDatabase` (lines 1531-1556): resolve doing
nothing when no canonical file exists; otherwise the connection object
is created (and assigned to `xigDb`) unconditionally, the promise
rejects when the open reports an error (`Bool` result `true`), and on a
successful open the cache load is awaited (its own failures are caught
inside it). -/
def initializeDatabaseModel (env : Env) (s : SysState) :
    (SysState × List RefreshAction) × Bool :=
  match s.canonicalFile with
  | none => ((s, []), false)
  | some content =>
    let s1 := { s with xigDb := some content }
    if env.openOk then
      let r := loadConfigCacheModel env s1
      ((r.1, RefreshAction.openConn :: r.2), false)
    else ((s1, [RefreshAction.openConn]), true)

/-- Steps 3b-4 of the refresh (src/xig.js lines 1582-1584): rename the
temporary file onto the canonical path, then reinitialize; a rejection
of `initializeDatabase` inside the `try` block is a thrown failure. -/
def swapAndInit (env : Env) (s4 : SysState) (a4 : List RefreshAction) :
    Except (SysState × List RefreshAction) (SysState × List RefreshAction) :=
  if !env.renameOk then Except.error (s4, a4)
  else
    let s5 := { s4 with canonicalFile := s4.tmpFile, tmpFile := none }
    let a5 := a4 ++ [RefreshAction.renameTmp]
    match initializeDatabaseModel env s5 with
    | (r, threw) =>
      if threw then Except.error (r.1, a5 ++ r.2) else Except.ok (r.1, a5 ++ r.2)

/-- Step 3a of the refresh (src/xig.js lines 1579-1581): delete the
prior canonical file if one exists, then rename. -/
def unlinkThenSwap (env : Env) (s3 : SysState) (a3 : List RefreshAction) :
    Except (SysState × List RefreshAction) (SysState × List RefreshAction) :=
  match s3.canonicalFile with
  | some _ =>
    if !env.unlinkOk then Except.error (s3, a3)
    else swapAndInit env { s3 with canonicalFile := none } (a3 ++ [RefreshAction.deleteCanonical])
  | none => swapAndInit env s3 a3

/-- The `try` block of `updateXigDatabase` (src/xig.js lines 1559-1586):
download to the temporary path, validate, close any open connection,
delete the prior canonical file, rename, reinitialize.  `Except.error`
carries the state and actions at the point a failure is thrown. -/
def tryUpdateBody (env : Env) (s : SysState) :
    Except (SysState × List RefreshAction) (SysState × List RefreshAction) :=
  if !env.downloadOk then Except.error (s, [RefreshAction.downloadStart])
  else
    let s1 := { s with tmpFile := some env.newContent }
    let a1 := [RefreshAction.downloadStart, RefreshAction.downloadDone]
    if !env.validateOk then Except.error (s1, a1)
    else if s1.xigDb ≠ none then
      unlinkThenSwap env { s1 with xigDb := none }
        (a1 ++ [RefreshAction.validateFile, RefreshAction.closeConn])
    else unlinkThenSwap env s1 (a1 ++ [RefreshAction.validateFile])

/-- The result of one refresh: final state, observable actions, and
whether `updateXigDatabase`'s promise rejected. -/
structure RefreshResult where
  state : SysState
  acts : List RefreshAction
  threw : Bool
deriving DecidableEq, Repr

/-- The `catch` block of `updateXigDatabase` (src/xig.js lines
1588-1599): delete the temporary file if present; when no connection is
open, reinitialize from whatever file is at the canonical path (a
rejection of this recovery reinitialization escapes to the caller). -/
def catchHandler (env : Env) (s' : SysState) (a : List RefreshAction) : RefreshResult :=
  let r1 :=
    if s'.tmpFile ≠ none then ({ s' with tmpFile := none }, [RefreshAction.removeTmp])
    else (s', ([] : List RefreshAction))
  if r1.1.xigDb = none then
    match initializeDatabaseModel env r1.1 with
    | (r2, threw) => { state := r2.1, acts := a ++ r1.2 ++ r2.2, threw := threw }
  else { state := r1.1, acts := a ++ r1.2, threw := false }

/-- src/xig.js `updateXigDatabase` (lines 1558-1600): run the `try`
block; on any failure run the `catch` block. -/
def updateXigDatabaseModel (env : Env) (s : SysState) : RefreshResult :=
  match tryUpdateBody env s with
  | Except.ok (s', a) => { state := s', acts := a, threw := false }
  | Except.error (s', a) => catchHandler env s' a

/-- The synchronous prologue of `updateXigDatabase` (src/xig.js lines
1559-1564 and 1250-1262): log, compute the temporary path, and call
`downloadFile`, which immediately issues the HTTP request — the download
side effect starts before the first `await` yields.  No flag or state is
consulted: the module has no re-entrancy guard for the refresh entry
point (`cacheLoadInProgress` is read only inside `loadConfigCache`), so
this prologue runs in full for every trigger, including one issued while
another refresh is mid-flight. -/
def updateXigPrologue (s : SysState) : SysState × List RefreshAction :=
  (s, [RefreshAction.downloadStart])

/-- Two refresh triggers issued back-to-back: in Node's single-threaded
execution the first runs its synchronous prologue up to the first
`await`, then the second trigger's call runs the same prologue. -/
def backToBackTriggerActions (s : SysState) : List RefreshAction :=
  (updateXigPrologue s).2 ++ (updateXigPrologue (updateXigPrologue s).1).2

/-- Whether every lookup table of the published cache is populated. -/
def allTables (cc : ConfigCache) : Bool :=
  ["metadata", "realms", "authorities", "packages", "packagesById", "profileResources",
    "profileTypes", "resourceTypes", "extensionContexts", "extensionTypes", "txSources",
    "versions", "types"].all (fun n => (mapsLookup cc n).isSome)

/-- The snapshot invariant: the published cache is the initial unloaded
object or a fully built one. -/
def cacheInv (cc : ConfigCache) : Prop :=
  cc = initialConfigCache ∨ (cc.loaded = true ∧ allTables cc = true)

/-- The state a `tryUpdateBody` outcome carries, failure or success. -/
def exceptState (e : Except (SysState × List RefreshAction) (SysState × List RefreshAction)) :
    SysState :=
  match e with
  | Except.ok (s, _) => s
  | Except.error (s, _) => s

theorem buildCacheModel_full (failAt : Option QueryId) (d : Dataset) (cc : ConfigCache)
    (h : buildCacheModel failAt d = some cc) : cc.loaded = true ∧ allTables cc = true := by
  unfold buildCacheModel at h
  cases hf : failAt with
  | none =>
    rw [hf] at h
    cases hr : d.resourcesTableExists <;> rw [hr] at h <;>
      simp [chk, Option.bind] at h <;> rw [← h] <;> exact ⟨rfl, by rfl⟩
  | some q =>
    rw [hf] at h
    cases hr : d.resourcesTableExists <;> rw [hr] at h <;>
      cases q <;> simp [chk, Option.bind] at h <;> rw [← h] <;> exact ⟨rfl, by rfl⟩

theorem loadConfigCache_inv (env : Env) (s : SysState) (h : cacheInv s.configCache) :
    cacheInv ((loadConfigCacheModel env s).1.configCache) := by
  unfold loadConfigCacheModel
  split
  · exact h
  · split
    · exact h
    · split
      · exact h
      · rename_i nc hnc
        exact Or.inr (buildCacheModel_full env.failAt env.dataset nc hnc)

theorem loadConfigCache_failure_keeps (env : Env) (s : SysState)
    (h : buildCacheModel env.failAt env.dataset = none) :
    (loadConfigCacheModel env s).1.configCache = s.configCache := by
  unfold loadConfigCacheModel
  split
  · rfl
  · split
    · rfl
    · split
      · rfl
      · rename_i nc hnc
        rw [h] at hnc
        exact absurd hnc (by simp)

theorem initializeDatabase_inv (env : Env) (s : SysState) (h : cacheInv s.configCache) :
    cacheInv ((initializeDatabaseModel env s).1.1.configCache) := by
  unfold initializeDatabaseModel
  split
  · exact h
  · split
    · exact loadConfigCache_inv env _ h
    · exact h

theorem swapAndInit_inv (env : Env) (s4 : SysState) (a4 : List RefreshAction)
    (h : cacheInv s4.configCache) :
    cacheInv ((exceptState (swapAndInit env s4 a4)).configCache) := by
  unfold swapAndInit
  split
  · exact h
  · dsimp only
    split
    · exact initializeDatabase_inv env _ h
    · exact initializeDatabase_inv env _ h

theorem unlinkThenSwap_inv (env : Env) (s3 : SysState) (a3 : List RefreshAction)
    (h : cacheInv s3.configCache) :
    cacheInv ((exceptState (unlinkThenSwap env s3 a3)).configCache) := by
  unfold unlinkThenSwap
  split
  · split
    · exact h
    · exact swapAndInit_inv env _ _ h
  · exact swapAndInit_inv env _ _ h

theorem tryUpdateBody_inv (env : Env) (s : SysState) (h : cacheInv s.configCache) :
    cacheInv ((exceptState (tryUpdateBody env s)).configCache) := by
  unfold tryUpdateBody
  split
  · exact h
  · dsimp only
    split
    · exact h
    · split
      · exact unlinkThenSwap_inv env _ _ h
      · exact unlinkThenSwap_inv env _ _ h

theorem catchHandler_inv (env : Env) (s' : SysState) (a : List RefreshAction)
    (hb : cacheInv s'.configCache) :
    cacheInv ((catchHandler env s' a).state.configCache) := by
  unfold catchHandler
  by_cases ht : s'.tmpFile ≠ none
  · rw [if_pos ht]
    dsimp only
    split
    · exact initializeDatabase_inv env { s' with tmpFile := none } hb
    · exact hb
  · rw [if_neg ht]
    dsimp only
    split
    · exact initializeDatabase_inv env s' hb
    · exact hb

/-- The snapshot invariant is preserved by a whole refresh, whatever the
environment does. -/
theorem updateXig_inv (env : Env) (s : SysState) (h : cacheInv s.configCache) :
    cacheInv ((updateXigDatabaseModel env s).state.configCache) := by
  unfold updateXigDatabaseModel
  have hb := tryUpdateBody_inv env s h
  split
  · rename_i s' a heq
    rw [heq] at hb
    exact hb
  · rename_i s' a heq
    rw [heq] at hb
    simp only [exceptState] at hb
    exact catchHandler_inv env s' a hb

/-!  Shared concrete fixtures and a substring check used by the claim
theorems below. -/

def isStartOf : List Char → List Char → Bool
  | [], _ => true
  | _ :: _, [] => false
  | a :: as, b :: bs => a = b && isStartOf as bs

def infixAt (n : List Char) : List Char → Bool
  | [] => isStartOf n []
  | h :: hs => isStartOf n (h :: hs) || infixAt n hs

/-- Whether `needle` occurs as a contiguous substring of `hay`. -/
def containsStr (hay needle : String) : Bool := infixAt needle.data hay.data

/-- An empty dataset. -/
def d0 : Dataset :=
  { metadata := [], realms := [], authorities := [], packages := [],
    resourcesTableExists := false, profileResources := [], profileTypes := [],
    resourceTypes := [], extensionContexts := [], extensionTypes := [], txSources := [] }

/-- An environment in which every refresh step succeeds. -/
def envAllOk : Env :=
  { downloadOk := true, newContent := 2, validateOk := true, unlinkOk := true,
    renameOk := true, openOk := true, failAt := none, dataset := d0 }

/-- A steady state: dataset file 1 on disk, an open connection on it. -/
def sLive : SysState :=
  { canonicalFile := some 1, tmpFile := none, xigDb := some 1,
    cacheLoadInProgress := false, configCache := initialConfigCache }

/-!  Claim theorems. -/

/-- C5: for every view type and every non-empty refinement value `rt`
that fails its view type's known-value check (`rtAccepted` is the
branch-specific `hasCachedValue`/`hasTerminologySource` guard of
`buildSqlFilter`, false in particular whenever the cache is not loaded),
the compiled filter is exactly the string compiled with `rt` omitted:
unknown refinement values never reach the generated query text. -/
theorem c5UnknownRtDropped (cc : ConfigCache) (qp : QueryParams)
    (hne : qp.rt ≠ "") (h : rtAccepted cc qp.type qp.rt = false) :
    buildSqlFilter cc qp = buildSqlFilter cc { qp with rt := "" } :=
  buildSqlFilter_rt_dropped cc qp h

/-- Witness for C5: view type `rp` with unknown `rt=bogus` against a
loaded cache knowing only `Patient`, evaluated concretely. -/
theorem c5UnknownRtDroppedWitness :
    ("bogus" : String) ≠ "" ∧
    rtAccepted { loaded := true, maps := [("profileResources", CacheTable.tset ["Patient"])] }
      "rp" "bogus" = false ∧
    buildSqlFilter { loaded := true, maps := [("profileResources", CacheTable.tset ["Patient"])] }
        { type := "rp", rt := "bogus" } =
      buildSqlFilter { loaded := true, maps := [("profileResources", CacheTable.tset ["Patient"])] }
        { ({ type := "rp", rt := "bogus" } : QueryParams) with rt := "" } :=
  ⟨by decide, by decide,
    c5UnknownRtDropped
      { loaded := true, maps := [("profileResources", CacheTable.tset ["Patient"])] }
      { type := "rp", rt := "bogus" } (by decide) (by decide)⟩

/-- C6: every facet value incorporated into query text passes through the
SQL escaping function first.  Concretely: (1) `sqlEscapeString` doubles
every single quote; (2) the compiled filter equals the variant that
escapes each facet value up front and concatenates only pre-escaped
values; (3) consequently every compiled filter carries an even number of
single quotes — every string literal it opens is closed, whatever the
facet values contain. -/
theorem c6FacetValuesEscaped :
    (∀ s : String, countQuotes (sqlEscapeString s) = 2 * countQuotes s) ∧
    (∀ (cc : ConfigCache) (qp : QueryParams),
      buildSqlFilter cc qp = buildSqlFilterEscFirst cc qp) ∧
    (∀ (cc : ConfigCache) (qp : QueryParams),
      countQuotes (buildSqlFilter cc qp) % 2 = 0) :=
  ⟨countQuotes_sqlEscapeString, buildSqlFilterEscFirst_eq, buildSqlFilter_quotes_even⟩

/-- C9, counterexample: the claim says every non-empty `ver` value —
inside the closed enumeration or not — yields a clause.  For `ver=R7`
(not one of the seven version flags) the compiled filter has no clause
at all: the claim as stated is false. -/
theorem c9CounterVerDropped :
    ({ ver := "R7" } : QueryParams).ver ≠ "" ∧
    sqlClauses initialConfigCache { ver := "R7" } = [] ∧
    buildSqlFilter initialConfigCache { ver := "R7" } = "" := by
  refine ⟨by decide, by decide, by decide⟩

/-- C9, amended: non-empty `realm` and `auth` values pass through
unchecked — their clause is always present — while `ver` produces a
clause exactly when it is one of the seven closed version flags and is
silently dropped otherwise. -/
theorem c9RealmAuthPassThrough (cc : ConfigCache) (qp : QueryParams) :
    (qp.realm ≠ "" → ("realm = '" ++ sqlEscapeString qp.realm ++ "'") ∈ sqlClauses cc qp) ∧
    (qp.auth ≠ "" → ("authority = '" ++ sqlEscapeString qp.auth ++ "'") ∈ sqlClauses cc qp) ∧
    (qp.ver ∈ (["R2", "R2B", "R3", "R4", "R4B", "R5", "R6"] : List String) →
      (qp.ver ++ " = 1") ∈ sqlClauses cc qp) ∧
    (qp.ver ∉ (["R2", "R2B", "R3", "R4", "R4B", "R5", "R6"] : List String) →
      verClauses qp = []) := by
  refine ⟨?_, ?_, ?_, ?_⟩
  · intro h
    simp [sqlClauses, realmClauses, h]
  · intro h
    simp [sqlClauses, authClauses, h]
  · intro hv
    simp only [List.mem_cons, List.not_mem_nil, or_false] at hv
    rcases hv with h | h | h | h | h | h | h <;>
      simp [sqlClauses, verClauses, h]
  · intro hv
    simp only [verClauses]
    split_ifs <;> simp_all

/-- Witness for C9's amended theorem at `realm=us`, `auth=hl7`,
`ver=R4`. -/
theorem c9RealmAuthPassThroughWitness :
    ("realm = '" ++ sqlEscapeString "us" ++ "'") ∈
      sqlClauses initialConfigCache { realm := "us", auth := "hl7", ver := "R4" } ∧
    ("authority = '" ++ sqlEscapeString "hl7" ++ "'") ∈
      sqlClauses initialConfigCache { realm := "us", auth := "hl7", ver := "R4" } ∧
    (("R4" : String) ++ " = 1") ∈
      sqlClauses initialConfigCache { realm := "us", auth := "hl7", ver := "R4" } ∧
    verClauses { ver := "R9" } = [] :=
  ⟨(c9RealmAuthPassThrough initialConfigCache { realm := "us", auth := "hl7", ver := "R4" }).1
      (by decide),
    (c9RealmAuthPassThrough initialConfigCache { realm := "us", auth := "hl7", ver := "R4" }).2.1
      (by decide),
    (c9RealmAuthPassThrough initialConfigCache { realm := "us", auth := "hl7", ver := "R4" }).2.2.1
      (by decide),
    (c9RealmAuthPassThrough initialConfigCache { ver := "R9" }).2.2.2 (by decide)⟩

/-- C10, counterexample: the claim describes the non-empty output as
`WHERE ` followed by the ` and `-joined clauses with the leading ` and `
stripped.  `filter.substring(4)` strips only the four characters ` and`,
leaving the separator's trailing space, so the output carries two spaces
after `WHERE` and differs from the claim's described string. -/
theorem c10CounterFilterShapeSpace :
    buildSqlFilter initialConfigCache { realm := "us" } = "WHERE  realm = 'us'" ∧
    "WHERE " ++ andIntercalate (sqlClauses initialConfigCache { realm := "us" }) =
      "WHERE realm = 'us'" ∧
    buildSqlFilter initialConfigCache { realm := "us" } ≠
      "WHERE " ++ andIntercalate (sqlClauses initialConfigCache { realm := "us" }) := by
  refine ⟨by decide, by decide, by decide⟩

/-- C10, amended: the compiled filter is the empty string exactly when no
clause applies, and otherwise `WHERE ` followed by one extra space
(the residue of `substring(4)` on the leading ` and ` separator) and the
` and `-joined clauses — in particular it always begins with `WHERE `
and never with a dangling ` and `.  Every downstream query builder
interpolates this output directly after its `FROM` clause: the count and
list builders inside their trimmed templates, the three aggregate
builders of the summary between `FROM Resources` and their `GROUP BY`
or `AND` tails. -/
theorem c10FilterShape (cc : ConfigCache) (qp : QueryParams) (offset limit : Nat) :
    (sqlClauses cc qp = [] → buildSqlFilter cc qp = "") ∧
    (sqlClauses cc qp ≠ [] →
      buildSqlFilter cc qp = "WHERE " ++ (" " ++ andIntercalate (sqlClauses cc qp))) ∧
    (buildSqlFilter cc qp ≠ "" → ∃ rest, buildSqlFilter cc qp = "WHERE " ++ rest) ∧
    (sqlClauses cc qp = [] →
      buildResourceCountQuery cc qp = "SELECT COUNT(*) as total\n    FROM Resources") ∧
    (sqlClauses cc qp ≠ [] →
      buildResourceCountQuery cc qp =
        "SELECT COUNT(*) as total\n    FROM Resources\n    " ++ buildSqlFilter cc qp) ∧
    (sqlClauses cc qp ≠ [] →
      buildResourceListQuery cc qp offset limit =
        "SELECT \n      ResourceKey,\n      ResourceType,\n      Type,\n      Kind,\n      Description,\n      PackageKey,\n      Realm,\n      Authority,\n      R2, R2B, R3, R4, R4B, R5, R6,\n      Id,\n      Url,\n      Version,\n      Status,\n      Date,\n      Name,\n      Title,\n      Content,\n      Supplements,\n      Details,\n      Web\n    FROM Resources\n    " ++
          (buildSqlFilter cc qp ++
            ("\n    ORDER BY ResourceType, Type, Description\n    LIMIT " ++
              (natToString limit ++ (" OFFSET " ++ natToString offset))))) ∧
    (buildSqlFilter cc qp ≠ "" →
      authorityAggSql cc qp =
        "SELECT Authority, COUNT(*) as count FROM Resources " ++ buildSqlFilter cc qp ++
          " GROUP BY Authority ORDER BY Authority") ∧
    (buildSqlFilter cc qp ≠ "" → ∀ version,
      versionAggSql cc qp version =
        "SELECT COUNT(*) as count FROM Resources " ++ buildSqlFilter cc qp ++
          " AND " ++ version ++ " = 1") := by
  refine ⟨(buildSqlFilter_shape cc qp).1, (buildSqlFilter_shape cc qp).2, ?_, ?_, ?_, ?_, ?_, ?_⟩
  · intro h
    rcases hc : sqlClauses cc qp with _ | ⟨c, cs⟩
    · exact absurd ((buildSqlFilter_shape cc qp).1 hc) h
    · exact ⟨" " ++ andIntercalate (sqlClauses cc qp), by
        rw [(buildSqlFilter_shape cc qp).2 (by rw [hc]; simp)]⟩
  · exact buildResourceCountQuery_empty cc qp
  · exact buildResourceCountQuery_filtered cc qp
  · exact buildResourceListQuery_filtered cc qp offset limit
  · intro h
    simp [authorityAggSql, h]
  · intro h version
    simp [versionAggSql, h]

/-- Witness for C10's amended theorem at `realm=us` (non-empty side) and
at the empty facet set (empty side). -/
theorem c10FilterShapeWitness :
    buildSqlFilter initialConfigCache { realm := "us" } =
      "WHERE " ++ (" " ++ andIntercalate (sqlClauses initialConfigCache { realm := "us" })) ∧
    buildResourceCountQuery initialConfigCache { realm := "us" } =
      "SELECT COUNT(*) as total\n    FROM Resources\n    " ++
        buildSqlFilter initialConfigCache { realm := "us" } ∧
    authorityAggSql initialConfigCache { realm := "us" } =
      "SELECT Authority, COUNT(*) as count FROM Resources " ++
        buildSqlFilter initialConfigCache { realm := "us" } ++
        " GROUP BY Authority ORDER BY Authority" ∧
    buildResourceCountQuery initialConfigCache {} = "SELECT COUNT(*) as total\n    FROM Resources" :=
  ⟨(c10FilterShape initialConfigCache { realm := "us" } 0 200).2.1 (by decide),
    (c10FilterShape initialConfigCache { realm := "us" } 0 200).2.2.2.2.1 (by decide),
    (c10FilterShape initialConfigCache { realm := "us" } 0 200).2.2.2.2.2.2.1 (by decide),
    (c10FilterShape initialConfigCache {} 0 200).2.2.2.1 (by decide)⟩

/-- Modelled from the spec: the number the spec says the `other` bucket
reports — the combined count of matching records carried by realm codes
longer than 3 characters. -/
def specOtherTotal (rows : List (Option String × Nat)) : Nat :=
  ((rows.filter isLongRealmRow).map (fun r => r.2)).sum

set_option maxRecDepth 100000 in
set_option maxHeartbeats 2000000 in
/-- C1, counterexample: on the spec's own dataset — realms `us` (10),
`uk` (5), `longcustomrealm` (3) — the realm breakdown renders
`other: 1`, not `other: 3`: the counter `c` is incremented once per
grouped long-realm row (`c++`), never by the row's record count.  The
long code itself is not listed (that half of the claim holds) and the
short codes keep their record counts. -/
theorem c1CounterRealmOther :
    (realmAccum "/xig/resources" {}
      [(some "us", 10), (some "uk", 5), (some "longcustomrealm", 3)]).2 = 1 ∧
    specOtherTotal [(some "us", 10), (some "uk", 5), (some "longcustomrealm", 3)] = 3 ∧
    (1 : Nat) ≠ 3 ∧
    containsStr
      (realmSection
        { get := fun _ => 0,
          all := fun _ => [(some "us", 10), (some "uk", 5), (some "longcustomrealm", 3)] }
        initialConfigCache {} "/xig/resources") "<li>other: 1</li>" = true ∧
    containsStr
      (realmSection
        { get := fun _ => 0,
          all := fun _ => [(some "us", 10), (some "uk", 5), (some "longcustomrealm", 3)] }
        initialConfigCache {} "/xig/resources") "<li>other: 3</li>" = false ∧
    containsStr
      (realmSection
        { get := fun _ => 0,
          all := fun _ => [(some "us", 10), (some "uk", 5), (some "longcustomrealm", 3)] }
        initialConfigCache {} "/xig/resources") "longcustomrealm" = false ∧
    containsStr
      (realmSection
        { get := fun _ => 0,
          all := fun _ => [(some "us", 10), (some "uk", 5), (some "longcustomrealm", 3)] }
        initialConfigCache {} "/xig/resources") ">us</a>: 10" = true := by
  refine ⟨by decide, by decide, by decide, by decide, by decide, by decide, by decide⟩

/-- C1, amended: realm codes longer than 3 characters are never listed
individually — the rendered items are exactly those of the non-long
rows — and they are bucketed into the single `other` entry, but the
number that entry reports is the count of distinct long realm codes in
the grouped result (one per row), not the combined record count. -/
theorem c1RealmOtherBucket (baseUrl : String) (qp : QueryParams)
    (rows : List (Option String × Nat)) :
    (realmAccum baseUrl qp rows).2 = (rows.filter isLongRealmRow).length ∧
    (realmAccum baseUrl qp rows).1 =
      strConcat ((rows.filter (fun r => !isLongRealmRow r)).map (shortRealmItem baseUrl qp)) := by
  rw [realmAccum_spec]
  exact ⟨rfl, rfl⟩

/-- Setting auth to "" is the identity when the facet is already empty. -/
theorem qp_setAuth_self (qp : QueryParams) (h : qp.auth = "") : { qp with auth := "" } = qp := by
  cases qp
  simp_all

/-- Setting ver to "" is the identity when the facet is already empty. -/
theorem qp_setVer_self (qp : QueryParams) (h : qp.ver = "") : { qp with ver := "" } = qp := by
  cases qp
  simp_all

/-- Setting realm to "" is the identity when the facet is already empty. -/
theorem qp_setRealm_self (qp : QueryParams) (h : qp.realm = "") : { qp with realm := "" } = qp := by
  cases qp
  simp_all

set_option maxRecDepth 100000 in
set_option maxHeartbeats 2000000 in
/-- C4, counterexample: with an authority facet applied (`auth=hl7`) the
summary contains no authority breakdown at all — the claim's promised
full distribution (which the facet-free aggregate would render, e.g.
`hl7: 5`) is absent; with the facet removed the section is present. -/
theorem c4CounterBreakdownSkipped :
    ({ auth := "hl7" } : QueryParams).auth ≠ "" ∧
    containsStr
      (buildSummaryStats { get := fun _ => 7, all := fun _ => [(some "hl7", 5)] }
        initialConfigCache { auth := "hl7" } "/xig/resources") "By Authority" = false ∧
    containsStr
      (authoritySection { get := fun _ => 7, all := fun _ => [(some "hl7", 5)] }
        initialConfigCache { ({ auth := "hl7" } : QueryParams) with auth := "" }
        "/xig/resources") "hl7</a>: 5" = true ∧
    containsStr
      (buildSummaryStats { get := fun _ => 7, all := fun _ => [(some "hl7", 5)] }
        initialConfigCache {} "/xig/resources") "By Authority" = true := by
  refine ⟨by decide, by decide, by decide, by decide⟩

/-- C4, amended: each of the three breakdowns is rendered only when its
own facet is empty — a breakdown whose facet is applied is omitted
entirely (its slot in the summary is the empty string), not recomputed —
and when rendered it uses the full active predicate, which (since its
own facet is then empty) coincides with the predicate with that facet
removed. -/
theorem c4BreakdownOnlyWhenFacetEmpty (db : DbOracle) (cc : ConfigCache) (qp : QueryParams)
    (baseUrl : String) :
    (qp.ver ≠ "" →
      buildSummaryStats db cc qp baseUrl =
        "<div style=\"background-color:rgb(254, 250, 198); border: 1px black solid; padding: 6px; font-size: 12px; font-family: verdana;\">" ++
        "" ++
        (if qp.auth = "" then authoritySection db cc qp baseUrl else "") ++
        (if qp.realm = "" then realmSection db cc qp baseUrl else "") ++
        "</div><p>&nbsp;</p>") ∧
    (qp.ver = "" →
      versionSection db cc qp baseUrl = versionSection db cc { qp with ver := "" } baseUrl ∧
      buildSqlFilter cc qp = buildSqlFilter cc { qp with ver := "" }) ∧
    (qp.auth ≠ "" →
      buildSummaryStats db cc qp baseUrl =
        "<div style=\"background-color:rgb(254, 250, 198); border: 1px black solid; padding: 6px; font-size: 12px; font-family: verdana;\">" ++
        (if qp.ver = "" then versionSection db cc qp baseUrl else "") ++
        "" ++
        (if qp.realm = "" then realmSection db cc qp baseUrl else "") ++
        "</div><p>&nbsp;</p>") ∧
    (qp.auth = "" →
      authoritySection db cc qp baseUrl = authoritySection db cc { qp with auth := "" } baseUrl ∧
      buildSqlFilter cc qp = buildSqlFilter cc { qp with auth := "" }) ∧
    (qp.realm ≠ "" →
      buildSummaryStats db cc qp baseUrl =
        "<div style=\"background-color:rgb(254, 250, 198); border: 1px black solid; padding: 6px; font-size: 12px; font-family: verdana;\">" ++
        (if qp.ver = "" then versionSection db cc qp baseUrl else "") ++
        (if qp.auth = "" then authoritySection db cc qp baseUrl else "") ++
        "" ++
        "</div><p>&nbsp;</p>") ∧
    (qp.realm = "" →
      realmSection db cc qp baseUrl = realmSection db cc { qp with realm := "" } baseUrl ∧
      buildSqlFilter cc qp = buildSqlFilter cc { qp with realm := "" }) := by
  refine ⟨?_, ?_, ?_, ?_, ?_, ?_⟩
  · intro h
    simp only [buildSummaryStats, if_neg h]
  · intro h
    rw [qp_setVer_self qp h]
    exact ⟨rfl, rfl⟩
  · intro h
    simp only [buildSummaryStats, if_neg h]
  · intro h
    rw [qp_setAuth_self qp h]
    exact ⟨rfl, rfl⟩
  · intro h
    simp only [buildSummaryStats, if_neg h]
  · intro h
    rw [qp_setRealm_self qp h]
    exact ⟨rfl, rfl⟩

set_option maxRecDepth 100000 in
set_option maxHeartbeats 2000000 in
/-- Witness for C4's amended theorem: with `auth=hl7` the authority slot
of the summary is empty; with no facets the authority section equals the
facet-removed one. -/
theorem c4BreakdownOnlyWhenFacetEmptyWitness :
    buildSummaryStats { get := fun _ => 7, all := fun _ => [(some "hl7", 5)] }
        initialConfigCache { auth := "hl7" } "/xig/resources" =
      "<div style=\"background-color:rgb(254, 250, 198); border: 1px black solid; padding: 6px; font-size: 12px; font-family: verdana;\">" ++
      (if ({ auth := "hl7" } : QueryParams).ver = "" then
        versionSection { get := fun _ => 7, all := fun _ => [(some "hl7", 5)] }
          initialConfigCache { auth := "hl7" } "/xig/resources" else "") ++
      "" ++
      (if ({ auth := "hl7" } : QueryParams).realm = "" then
        realmSection { get := fun _ => 7, all := fun _ => [(some "hl7", 5)] }
          initialConfigCache { auth := "hl7" } "/xig/resources" else "") ++
      "</div><p>&nbsp;</p>" ∧
    authoritySection { get := fun _ => 7, all := fun _ => [(some "hl7", 5)] }
        initialConfigCache {} "/xig/resources" =
      authoritySection { get := fun _ => 7, all := fun _ => [(some "hl7", 5)] }
        initialConfigCache { ({} : QueryParams) with auth := "" } "/xig/resources" :=
  ⟨(c4BreakdownOnlyWhenFacetEmpty { get := fun _ => 7, all := fun _ => [(some "hl7", 5)] }
      initialConfigCache { auth := "hl7" } "/xig/resources").2.2.1 (by decide),
    ((c4BreakdownOnlyWhenFacetEmpty { get := fun _ => 7, all := fun _ => [(some "hl7", 5)] }
      initialConfigCache {} "/xig/resources").2.2.2.1 (by decide)).1⟩

/-- With no failing query configured, the cache build succeeds. -/
theorem buildCacheModel_none_isSome (d : Dataset) : (buildCacheModel none d).isSome = true := by
  cases hr : d.resourcesTableExists <;> simp [buildCacheModel, chk, Option.bind, hr]

/-- C2, counterexample: from a live state (file 1 on disk, open
connection) with the rename failing, the refresh is caught (`threw`
false) but the prior dataset file is gone (deleted before the rename)
and the connection is closed and not replaced — the previous file and
connection do not remain active.  On the all-success environment the
trace shows the replacement is two filesystem operations
(`deleteCanonical` then `renameTmp`), not one atomic move. -/
theorem c2CounterSwapNotAtomic :
    sLive.canonicalFile = some 1 ∧
    sLive.xigDb = some 1 ∧
    (updateXigDatabaseModel { envAllOk with renameOk := false } sLive).threw = false ∧
    (updateXigDatabaseModel { envAllOk with renameOk := false } sLive).state.canonicalFile = none ∧
    (updateXigDatabaseModel { envAllOk with renameOk := false } sLive).state.xigDb = none ∧
    (updateXigDatabaseModel envAllOk sLive).acts =
      [RefreshAction.downloadStart, RefreshAction.downloadDone, RefreshAction.validateFile,
        RefreshAction.closeConn, RefreshAction.deleteCanonical, RefreshAction.renameTmp,
        RefreshAction.openConn, RefreshAction.rebuildCache] := by
  refine ⟨rfl, rfl, by decide, by decide, by decide, by decide⟩

/-- C2, amended: step 3 replaces the dataset file by deleting the prior
file and then renaming the temporary file — two separate filesystem
operations, visible as `deleteCanonical` followed by `renameTmp` in the
success trace.  Failures of the rename and of the reconnection are both
caught inside `updateXigDatabase` (nothing is rethrown) and the
temporary file never survives, but the previous dataset file and
connection do not remain active in either case: when the rename fails,
the connection was closed and the file deleted before the failing step,
leaving no canonical file and no connection (the recovery
reinitialization finds no file); when the rename succeeds and the
reopen fails, the new file sits at the canonical path and the handle
assigned by the failed open is retained, so the catch's no-connection
recovery is skipped. -/
theorem c2SwapFailureContained :
    (∀ (env : Env) (s : SysState) (c d : Nat),
      env.downloadOk = true → env.validateOk = true → env.unlinkOk = true →
      env.renameOk = false → s.canonicalFile = some c → s.xigDb = some d →
      (updateXigDatabaseModel env s).threw = false ∧
      (updateXigDatabaseModel env s).state.canonicalFile = none ∧
      (updateXigDatabaseModel env s).state.xigDb = none ∧
      (updateXigDatabaseModel env s).state.tmpFile = none ∧
      (updateXigDatabaseModel env s).state.configCache = s.configCache ∧
      (updateXigDatabaseModel env s).acts =
        [RefreshAction.downloadStart, RefreshAction.downloadDone, RefreshAction.validateFile,
          RefreshAction.closeConn, RefreshAction.deleteCanonical, RefreshAction.removeTmp]) ∧
    (∀ (env : Env) (s : SysState) (c d : Nat),
      env.downloadOk = true → env.validateOk = true → env.unlinkOk = true →
      env.renameOk = true → env.openOk = false →
      s.canonicalFile = some c → s.xigDb = some d →
      (updateXigDatabaseModel env s).threw = false ∧
      (updateXigDatabaseModel env s).state.canonicalFile = some env.newContent ∧
      (updateXigDatabaseModel env s).state.xigDb = some env.newContent ∧
      (updateXigDatabaseModel env s).state.tmpFile = none ∧
      (updateXigDatabaseModel env s).state.configCache = s.configCache ∧
      (updateXigDatabaseModel env s).acts =
        [RefreshAction.downloadStart, RefreshAction.downloadDone, RefreshAction.validateFile,
          RefreshAction.closeConn, RefreshAction.deleteCanonical, RefreshAction.renameTmp,
          RefreshAction.openConn]) ∧
    (∀ (env : Env) (s : SysState) (c d : Nat),
      env.downloadOk = true → env.validateOk = true → env.unlinkOk = true →
      env.renameOk = true → env.openOk = true → env.failAt = none →
      s.canonicalFile = some c → s.xigDb = some d → s.cacheLoadInProgress = false →
      (updateXigDatabaseModel env s).threw = false ∧
      (updateXigDatabaseModel env s).acts =
        [RefreshAction.downloadStart, RefreshAction.downloadDone, RefreshAction.validateFile,
          RefreshAction.closeConn, RefreshAction.deleteCanonical, RefreshAction.renameTmp,
          RefreshAction.openConn, RefreshAction.rebuildCache]) := by
  refine ⟨?_, ?_, ?_⟩
  · intro env s c d hdl hvl hul hrn hc hd
    simp [updateXigDatabaseModel, tryUpdateBody, unlinkThenSwap, swapAndInit, catchHandler,
      initializeDatabaseModel, hdl, hvl, hul, hrn, hc, hd]
  · intro env s c d hdl hvl hul hrn hop hc hd
    simp [updateXigDatabaseModel, tryUpdateBody, unlinkThenSwap, swapAndInit, catchHandler,
      initializeDatabaseModel, hdl, hvl, hul, hrn, hop, hc, hd]
  · intro env s c d hdl hvl hul hrn hop hfa hc hd hflag
    have hbc := buildCacheModel_none_isSome env.dataset
    cases hbs : buildCacheModel none env.dataset with
    | none => rw [hbs] at hbc; simp at hbc
    | some nc =>
      simp [updateXigDatabaseModel, tryUpdateBody, unlinkThenSwap, swapAndInit,
        initializeDatabaseModel, loadConfigCacheModel, hdl, hvl, hul, hrn, hop, hfa, hc, hd,
        hflag, hbs]

/-- Witness for C2's amended theorem on the concrete live state: the
rename-failure branch, the reopen-failure branch, and the success
trace. -/
theorem c2SwapFailureContainedWitness :
    ((updateXigDatabaseModel { envAllOk with renameOk := false } sLive).threw = false ∧
      (updateXigDatabaseModel { envAllOk with renameOk := false } sLive).state.canonicalFile = none ∧
      (updateXigDatabaseModel { envAllOk with renameOk := false } sLive).state.xigDb = none ∧
      (updateXigDatabaseModel { envAllOk with renameOk := false } sLive).state.tmpFile = none ∧
      (updateXigDatabaseModel { envAllOk with renameOk := false } sLive).state.configCache =
        sLive.configCache ∧
      (updateXigDatabaseModel { envAllOk with renameOk := false } sLive).acts =
        [RefreshAction.downloadStart, RefreshAction.downloadDone, RefreshAction.validateFile,
          RefreshAction.closeConn, RefreshAction.deleteCanonical, RefreshAction.removeTmp]) ∧
    ((updateXigDatabaseModel { envAllOk with openOk := false } sLive).threw = false ∧
      (updateXigDatabaseModel { envAllOk with openOk := false } sLive).state.canonicalFile =
        some 2 ∧
      (updateXigDatabaseModel { envAllOk with openOk := false } sLive).state.xigDb = some 2 ∧
      (updateXigDatabaseModel { envAllOk with openOk := false } sLive).state.tmpFile = none ∧
      (updateXigDatabaseModel { envAllOk with openOk := false } sLive).state.configCache =
        sLive.configCache ∧
      (updateXigDatabaseModel { envAllOk with openOk := false } sLive).acts =
        [RefreshAction.downloadStart, RefreshAction.downloadDone, RefreshAction.validateFile,
          RefreshAction.closeConn, RefreshAction.deleteCanonical, RefreshAction.renameTmp,
          RefreshAction.openConn]) ∧
    ((updateXigDatabaseModel envAllOk sLive).threw = false ∧
      (updateXigDatabaseModel envAllOk sLive).acts =
        [RefreshAction.downloadStart, RefreshAction.downloadDone, RefreshAction.validateFile,
          RefreshAction.closeConn, RefreshAction.deleteCanonical, RefreshAction.renameTmp,
          RefreshAction.openConn, RefreshAction.rebuildCache]) :=
  ⟨c2SwapFailureContained.1 { envAllOk with renameOk := false } sLive 1 1
      rfl rfl rfl rfl rfl rfl,
    c2SwapFailureContained.2.1 { envAllOk with openOk := false } sLive 1 1
      rfl rfl rfl rfl rfl rfl rfl,
    c2SwapFailureContained.2.2 envAllOk sLive 1 1 rfl rfl rfl rfl rfl rfl rfl rfl rfl⟩

/-- C3, counterexample: two refresh triggers issued back-to-back both run
`updateXigDatabase`'s synchronous prologue, which consults no guard and
starts a download — the combined trace holds two `downloadStart`s, so
the second trigger is not a no-op and more than one download executes. -/
theorem c3CounterSecondTriggerRuns :
    backToBackTriggerActions sLive = [RefreshAction.downloadStart, RefreshAction.downloadStart] ∧
    (backToBackTriggerActions sLive).count RefreshAction.downloadStart = 2 ∧
    ¬ (backToBackTriggerActions sLive).count RefreshAction.downloadStart = 1 ∧
    (updateXigPrologue ((updateXigPrologue sLive).1)).2 ≠ [] := by
  refine ⟨rfl, rfl, by decide, by decide⟩

/-- C3, amended: the refresh entry point itself has no re-entrancy guard
— its prologue starts a download from every state — and the only
serialization in the module is the `cacheLoadInProgress` guard of
`loadConfigCache`: a cache rebuild triggered while one is in progress
returns immediately with the state unchanged, executing no rebuild and
scheduling no retry. -/
theorem c3OnlyCacheRebuildGuarded :
    (∀ s : SysState, (updateXigPrologue s).2 = [RefreshAction.downloadStart]) ∧
    (∀ (env : Env) (s : SysState), s.cacheLoadInProgress = true →
      loadConfigCacheModel env s = (s, [RefreshAction.rebuildSkipped])) := by
  constructor
  · intro s
    rfl
  · intro env s h
    simp [loadConfigCacheModel, h]

/-- Witness for C3's amended theorem: a rebuild trigger against a state
with a rebuild in progress is a no-op. -/
theorem c3OnlyCacheRebuildGuardedWitness :
    (updateXigPrologue sLive).2 = [RefreshAction.downloadStart] ∧
    loadConfigCacheModel envAllOk { sLive with cacheLoadInProgress := true } =
      ({ sLive with cacheLoadInProgress := true }, [RefreshAction.rebuildSkipped]) :=
  ⟨c3OnlyCacheRebuildGuarded.1 sLive,
    c3OnlyCacheRebuildGuarded.2 envAllOk { sLive with cacheLoadInProgress := true } rfl⟩

/-- C7, counterexample: with a stale dataset file on disk but no open
connection, a failed download does not leave the connection unchanged —
the `catch` block's recovery reinitialization opens a new connection on
the stale file (`none` becomes `some 1`). -/
theorem c7CounterFailedFetchReopens :
    ({ sLive with xigDb := none } : SysState).xigDb = none ∧
    (updateXigDatabaseModel { envAllOk with downloadOk := false }
      { sLive with xigDb := none }).state.xigDb = some 1 := by
  refine ⟨rfl, by decide⟩

/-- C7, amended: when the download or the validation of a refresh fails,
any temporary file is removed and the next trigger's prologue is as
effective as ever (no flag blocks it); the remaining behavior depends on
the state before the attempt.  Provided a dataset connection is active
(or no canonical dataset file exists), the refresh aborts without
rejecting and leaves the connection, the canonical file and the
published cache unchanged.  Without an active connection but with a
canonical dataset file present, the `catch` block's recovery
reinitialization instead opens a new connection on that file; when that
open succeeds it rebuilds and publishes a new cache (the published
snapshot is changed), and when it fails the refresh rejects to its
caller. -/
theorem c7FetchFailureLeavesStateIntact (env : Env) (s : SysState)
    (hfail : env.downloadOk = false ∨ (env.downloadOk = true ∧ env.validateOk = false)) :
    (updateXigDatabaseModel env s).state.tmpFile = none ∧
    (updateXigPrologue (updateXigDatabaseModel env s).state).2 =
      [RefreshAction.downloadStart] ∧
    (s.xigDb ≠ none ∨ s.canonicalFile = none →
      (updateXigDatabaseModel env s).threw = false ∧
      (updateXigDatabaseModel env s).state.xigDb = s.xigDb ∧
      (updateXigDatabaseModel env s).state.canonicalFile = s.canonicalFile ∧
      (updateXigDatabaseModel env s).state.configCache = s.configCache) ∧
    (∀ f : Nat, s.xigDb = none → s.canonicalFile = some f → s.cacheLoadInProgress = false →
      (updateXigDatabaseModel env s).state.xigDb = some f ∧
      (updateXigDatabaseModel env s).state.canonicalFile = some f ∧
      (updateXigDatabaseModel env s).threw = !env.openOk ∧
      (env.openOk = true → ∀ nc : ConfigCache, buildCacheModel env.failAt env.dataset = some nc →
        (updateXigDatabaseModel env s).state.configCache = nc) ∧
      (env.openOk = false →
        (updateXigDatabaseModel env s).state.configCache = s.configCache)) := by
  have hbody : ∀ s' a, s'.xigDb = s.xigDb → s'.canonicalFile = s.canonicalFile →
      s'.configCache = s.configCache → s'.cacheLoadInProgress = s.cacheLoadInProgress →
      (catchHandler env s' a).state.tmpFile = none ∧
      (s.xigDb ≠ none ∨ s.canonicalFile = none →
        (catchHandler env s' a).threw = false ∧
        (catchHandler env s' a).state.xigDb = s.xigDb ∧
        (catchHandler env s' a).state.canonicalFile = s.canonicalFile ∧
        (catchHandler env s' a).state.configCache = s.configCache) ∧
      (∀ f : Nat, s.xigDb = none → s.canonicalFile = some f → s.cacheLoadInProgress = false →
        (catchHandler env s' a).state.xigDb = some f ∧
        (catchHandler env s' a).state.canonicalFile = some f ∧
        (catchHandler env s' a).threw = !env.openOk ∧
        (env.openOk = true → ∀ nc : ConfigCache,
          buildCacheModel env.failAt env.dataset = some nc →
          (catchHandler env s' a).state.configCache = nc) ∧
        (env.openOk = false →
          (catchHandler env s' a).state.configCache = s.configCache)) := by
    intro s' a hx hcf hcc hfl
    refine ⟨?_, ?_, ?_⟩
    · rcases hs : s.xigDb with _ | d
      · rcases hn : s.canonicalFile with _ | f
        · by_cases ht : s'.tmpFile = none <;>
            simp [catchHandler, initializeDatabaseModel, ht, hx, hcf, hs, hn]
        · cases hfl2 : s'.cacheLoadInProgress <;>
            cases ho : env.openOk <;>
            cases hb : buildCacheModel env.failAt env.dataset <;>
            by_cases ht : s'.tmpFile = none <;>
            simp [catchHandler, initializeDatabaseModel, loadConfigCacheModel, ht, hx, hcf,
              hcc, hfl2, hs, hn, ho, hb]
      · by_cases ht : s'.tmpFile = none <;> simp [catchHandler, ht, hx, hs]
    · intro hconn
      rcases hconn with hsome | hnone
      · obtain ⟨d, hd⟩ := Option.ne_none_iff_exists'.mp hsome
        by_cases ht : s'.tmpFile = none <;>
          simp [catchHandler, ht, hx, hcf, hcc, hd]
      · rcases hs : s.xigDb with _ | d
        · by_cases ht : s'.tmpFile = none <;>
            simp [catchHandler, initializeDatabaseModel, ht, hx, hcf, hcc, hnone, hs]
        · by_cases ht : s'.tmpFile = none <;>
            simp [catchHandler, ht, hx, hcf, hcc, hs]
    · intro f hs hn hflag
      have hfl2 : s'.cacheLoadInProgress = false := hfl.trans hflag
      cases ho : env.openOk
      · by_cases ht : s'.tmpFile = none <;>
          simp [catchHandler, initializeDatabaseModel, ht, hx, hcf, hcc, hs, hn, ho]
      · cases hb : buildCacheModel env.failAt env.dataset <;>
          by_cases ht : s'.tmpFile = none <;>
          simp [catchHandler, initializeDatabaseModel, loadConfigCacheModel, ht, hx, hcf,
            hcc, hfl2, hs, hn, ho, hb]
  rcases hfail with hdf | ⟨hdl, hvl⟩
  · have htb : tryUpdateBody env s = Except.error (s, [RefreshAction.downloadStart]) := by
      simp [tryUpdateBody, hdf]
    have hb := hbody s [RefreshAction.downloadStart] rfl rfl rfl rfl
    simp only [updateXigDatabaseModel, htb]
    exact ⟨hb.1, rfl, hb.2.1, hb.2.2⟩
  · have htb : tryUpdateBody env s =
        Except.error ({ s with tmpFile := some env.newContent },
          [RefreshAction.downloadStart, RefreshAction.downloadDone]) := by
      simp [tryUpdateBody, hdl, hvl]
    have hb := hbody { s with tmpFile := some env.newContent }
      [RefreshAction.downloadStart, RefreshAction.downloadDone] rfl rfl rfl rfl
    simp only [updateXigDatabaseModel, htb]
    exact ⟨hb.1, rfl, hb.2.1, hb.2.2⟩

/-- Witness for C7's amended theorem: a failed download against the live
state leaves everything unchanged, while from the no-connection state
with a stale canonical file the recovery reopens on that file without
rejecting, and with the recovery open also failing the refresh rejects
to its caller. -/
theorem c7FetchFailureLeavesStateIntactWitness :
    ((updateXigDatabaseModel { envAllOk with downloadOk := false } sLive).threw = false ∧
      (updateXigDatabaseModel { envAllOk with downloadOk := false } sLive).state.xigDb =
        sLive.xigDb ∧
      (updateXigDatabaseModel { envAllOk with downloadOk := false } sLive).state.canonicalFile =
        sLive.canonicalFile ∧
      (updateXigDatabaseModel { envAllOk with downloadOk := false } sLive).state.configCache =
        sLive.configCache) ∧
    (updateXigDatabaseModel { envAllOk with downloadOk := false } sLive).state.tmpFile = none ∧
    (updateXigPrologue (updateXigDatabaseModel { envAllOk with downloadOk := false }
      sLive).state).2 = [RefreshAction.downloadStart] ∧
    ((updateXigDatabaseModel { envAllOk with downloadOk := false }
        { sLive with xigDb := none }).state.xigDb = some 1 ∧
      (updateXigDatabaseModel { envAllOk with downloadOk := false }
        { sLive with xigDb := none }).threw = false) ∧
    (updateXigDatabaseModel { envAllOk with downloadOk := false, openOk := false }
      { sLive with xigDb := none }).threw = true :=
  ⟨(c7FetchFailureLeavesStateIntact { envAllOk with downloadOk := false } sLive
      (Or.inl rfl)).2.2.1 (Or.inl (by decide)),
    (c7FetchFailureLeavesStateIntact { envAllOk with downloadOk := false } sLive
      (Or.inl rfl)).1,
    (c7FetchFailureLeavesStateIntact { envAllOk with downloadOk := false } sLive
      (Or.inl rfl)).2.1,
    ⟨((c7FetchFailureLeavesStateIntact { envAllOk with downloadOk := false }
        { sLive with xigDb := none } (Or.inl rfl)).2.2.2 1 rfl rfl rfl).1,
      ((c7FetchFailureLeavesStateIntact { envAllOk with downloadOk := false }
        { sLive with xigDb := none } (Or.inl rfl)).2.2.2 1 rfl rfl rfl).2.2.1⟩,
    ((c7FetchFailureLeavesStateIntact { envAllOk with downloadOk := false, openOk := false }
      { sLive with xigDb := none } (Or.inl rfl)).2.2.2 1 rfl rfl rfl).2.2.1⟩

/-- C8: every published cache is the initial unloaded snapshot or a fully
built one.  Concretely: the initial cache is unloaded; a whole refresh
and a cache rebuild both preserve the invariant from any state
satisfying it; when the rebuild fails partway the published cache is
left untouched; and any successfully built cache is loaded with every
lookup table populated (the `loaded` flag is set only on the fully built
object, which is then published by the single reference assignment). -/
theorem c8SnapshotAtomicPublish :
    initialConfigCache.loaded = false ∧
    (∀ (env : Env) (s : SysState), cacheInv s.configCache →
      cacheInv ((updateXigDatabaseModel env s).state.configCache)) ∧
    (∀ (env : Env) (s : SysState), cacheInv s.configCache →
      cacheInv ((loadConfigCacheModel env s).1.configCache)) ∧
    (∀ (env : Env) (s : SysState), buildCacheModel env.failAt env.dataset = none →
      (loadConfigCacheModel env s).1.configCache = s.configCache) ∧
    (∀ (failAt : Option QueryId) (d : Dataset) (cc : ConfigCache),
      buildCacheModel failAt d = some cc → cc.loaded = true ∧ allTables cc = true) :=
  ⟨rfl, updateXig_inv, loadConfigCache_inv, loadConfigCache_failure_keeps, buildCacheModel_full⟩

/-- Witness for C8: a full refresh from the live state preserves the
invariant, and a rebuild whose first query fails leaves the published
cache untouched. -/
theorem c8SnapshotAtomicPublishWitness :
    cacheInv ((updateXigDatabaseModel envAllOk sLive).state.configCache) ∧
    (loadConfigCacheModel { envAllOk with failAt := some QueryId.qMetadata } sLive).1.configCache =
      sLive.configCache ∧
    cacheInv sLive.configCache :=
  ⟨c8SnapshotAtomicPublish.2.1 envAllOk sLive (Or.inl rfl),
    c8SnapshotAtomicPublish.2.2.2.1 { envAllOk with failAt := some QueryId.qMetadata } sLive
      (by decide),
    Or.inl rfl⟩

end Xig
